import Mathlib

/-!
# FinKrovly financial app: the request / cache / fallback module

A shallow embedding of `src/services/api.js` (the API client with its
time-boxed cache, server-status tracker and mutable mock "database") and
theorems about it.

Modelling conventions

* Module-level mutable state (`cache`, `serverStatus`, `mockOrganizations`)
  is an explicit `State` threaded through every operation.
* Every impure read is an explicit input of the operation that performs it:
  each `Date.now()` / `new Date().toISOString()` evaluation has its own
  argument, the settled result of the `axios` request is an
  `Except RemoteError Payload`, and the result of `generateUUID()` is a
  string argument.
* A thrown exception / rejected promise is `Except.error`.
* `setCache('organizations', mockOrganizations)` stores a *reference* to the
  mutable mock array; the cache slot therefore holds `CacheData.mockRef`,
  which is dereferenced against the current mock list when it is read.
* Clock values and the cache duration (`parseInt` results) are integers.
-/

namespace FinKrovly

/-! ## JavaScript values -/

/-- JavaScript primitive values, as carried by the fields of a record. -/
inductive Prim where
  | undefined
  | null
  | bool (b : Bool)
  | num (n : Int)
  | str (s : String)
  deriving DecidableEq, Repr

/-- JavaScript truthiness of a primitive (`x || y`, `if (x)`, `x && y`). -/
def Prim.truthy : Prim → Bool
  | .undefined => false
  | .null => false
  | .bool b => b
  | .num n => n != 0
  | .str s => s != ""

/-- A plain JavaScript object with primitive-valued own properties, in
insertion order. -/
abbrev Obj := List (String × Prim)

/-- Property read `o[k]`; an absent property reads as `undefined`. -/
def objGet (o : Obj) (k : String) : Prim :=
  (List.lookup k o).getD Prim.undefined

/-- Property assignment `o[k] = v` on the ordered own properties of an
object: an existing key keeps its position, a new key is appended. -/
def propAssign {β : Type} (o : List (String × β)) (k : String) (v : β) : List (String × β) :=
  if o.any (fun p => p.1 == k) then
    o.map (fun p => if p.1 == k then (p.1, v) else p)
  else
    o ++ [(k, v)]

/-- Property write `o[k] = v` on a record. -/
def objSet (o : Obj) (k : String) (v : Prim) : Obj :=
  propAssign o k v

/-- Object spread `{ ...base, ...extra }`. -/
def objSpread (base extra : Obj) : Obj :=
  extra.foldl (fun acc p => objSet acc p.1 p.2) base

/-- The value shapes that cross the module boundary (`response.data`, return
values): a primitive, a single record, an array of records, or an object
wrapping an array of records under the key `data`. -/
inductive Payload where
  | prim (p : Prim)
  | record (o : Obj)
  | list (xs : List Obj)
  | wrapped (xs : List Obj)
  deriving DecidableEq, Repr

/-- JavaScript truthiness of a payload: objects and arrays (also empty ones)
are truthy. -/
def Payload.truthy : Payload → Bool
  | .prim p => p.truthy
  | .record _ => true
  | .list _ => true
  | .wrapped _ => true

/-! ## Module state -/

/-- What the `data` field of a cache slot holds: a value of its own, or the
reference to the module-level `mockOrganizations` array. -/
inductive CacheData where
  | value (p : Payload)
  | mockRef
  deriving DecidableEq, Repr

/-- Truthiness of the `data` field of a cache slot. -/
def CacheData.truthy : CacheData → Bool
  | .value p => p.truthy
  | .mockRef => true

/-- One slot of `cache`: `{ data, timestamp, duration }`. -/
structure CacheItem where
  data : CacheData
  timestamp : Int
  duration : Int
  deriving DecidableEq, Repr

/-- The record `serverStatus`. -/
structure ServerStatus where
  available : Bool
  lastCheck : Int
  checkInterval : Int
  deriving DecidableEq, Repr

/-- The module-level mutable state of `api.js`. -/
structure State where
  cache : List (String × CacheItem)
  serverStatus : ServerStatus
  mockOrganizations : List Obj
  deriving DecidableEq, Repr

/-- The error object a failed request rejects with. -/
structure RemoteError where
  name : String
  message : String
  deriving DecidableEq, Repr

/-- Exceptions an operation can raise to its caller. -/
inductive JsError where
  /-- a request error rethrown unchanged (`throw error`) -/
  | remote (e : RemoteError)
  /-- NotFound raised by `getOrganizationById`, its message names the id -/
  | notFoundById (id : Prim)
  /-- NotFound raised by `updateOrganization` and `deleteOrganization` -/
  | notFound
  /-- DuplicateId raised by `createOrganization` -/
  | duplicateId
  /-- MissingPeriod raised by `calculateReport` -/
  | missingPeriod
  /-- InvalidRange raised by `calculateReport` -/
  | invalidRange
  /-- a runtime `TypeError` (calling a non-function, reading a property of
  `undefined`) -/
  | typeError
  deriving DecidableEq, Repr

/-- Equality of results (returned value or raised error) is decidable. -/
instance instDecidableEqResult : DecidableEq (Except JsError Payload) := fun a b =>
  match a, b with
  | .ok x, .ok y =>
    if h : x = y then isTrue (congrArg Except.ok h)
    else isFalse (fun h2 => h (Except.ok.inj h2))
  | .error x, .error y =>
    if h : x = y then isTrue (congrArg Except.error h)
    else isFalse (fun h2 => h (Except.error.inj h2))
  | .ok _, .error _ => isFalse (fun h2 => Except.noConfusion h2)
  | .error _, .ok _ => isFalse (fun h2 => Except.noConfusion h2)

/-- What one call of an operation produces: the returned value or raised
error, the module state afterwards, and the number of requests sent. -/
structure Outcome where
  result : Except JsError Payload
  state : State
  calls : Nat
  deriving DecidableEq

/-! ## Test data -/

/-- The static list `mockOrganizations` (lines 44-50). -/
def mockOrganizations : List Obj :=
  [ [("id", .str "11111111-1111-1111-1111-111111111111"), ("name", .str "ООО \"Ромашка\""),
     ("createdAt", .str "2024-01-01T10:00:00Z"), ("updatedAt", .str "2024-01-01T10:00:00Z")],
    [("id", .str "22222222-2222-2222-2222-222222222222"), ("name", .str "АО \"ТехноПром\""),
     ("createdAt", .str "2024-01-02T11:30:00Z"), ("updatedAt", .str "2024-01-02T11:30:00Z")],
    [("id", .str "33333333-3333-3333-3333-333333333333"), ("name", .str "ООО \"Альянс\""),
     ("createdAt", .str "2024-01-03T09:15:00Z"), ("updatedAt", .str "2024-01-03T09:15:00Z")],
    [("id", .str "44444444-4444-4444-4444-444444444444"), ("name", .str "ИП Иванов"),
     ("createdAt", .str "2024-01-04T14:20:00Z"), ("updatedAt", .str "2024-01-04T14:20:00Z")],
    [("id", .str "55555555-5555-5555-5555-555555555555"), ("name", .str "ЗАО \"СтройИнвест\""),
     ("createdAt", .str "2024-01-05T16:45:00Z"), ("updatedAt", .str "2024-01-05T16:45:00Z")] ]

/-- An empty cache slot `{ data: null, timestamp: 0, duration: CACHE_DURATION }`. -/
def emptySlot (CACHE_DURATION : Int) : CacheItem :=
  { data := .value (.prim .null), timestamp := 0, duration := CACHE_DURATION }

/-- The module state right after `api.js` is loaded (lines 44-50, 59-65,
93-97). -/
def initialState (CACHE_DURATION : Int) : State :=
  { cache := [("organizations", emptySlot CACHE_DURATION)]
    serverStatus := { available := true, lastCheck := 0, checkInterval := 60000 }
    mockOrganizations := mockOrganizations }

/-! ## Cache store -/

/-- The function `isCacheValid` (lines 67-70), as the truthiness of the value
it returns; `now` is the value of `Date.now()`. -/
def isCacheValid (s : State) (cacheKey : String) (now : Int) : Bool :=
  match List.lookup cacheKey s.cache with
  | none => false
  | some cacheItem => cacheItem.data.truthy && decide (now - cacheItem.timestamp < cacheItem.duration)

/-- The function `setCache` (lines 72-78); `now` is the value of `Date.now()`. -/
def setCache (CACHE_DURATION : Int) (s : State) (cacheKey : String) (data : CacheData)
    (now : Int) : State :=
  let item : CacheItem := { data := data, timestamp := now, duration := CACHE_DURATION }
  { s with cache := propAssign s.cache cacheKey item }

/-- The function `clearCache` (lines 80-90); `none` is a call without
argument, and an empty key is falsy like an absent one. -/
def clearCache (CACHE_DURATION : Int) (s : State) (cacheKey : Option String) : State :=
  match cacheKey with
  | some k =>
    if k != "" then
      { s with cache := propAssign s.cache k (emptySlot CACHE_DURATION) }
    else
      { s with cache := s.cache.map (fun p => (p.1, emptySlot CACHE_DURATION)) }
  | none => { s with cache := s.cache.map (fun p => (p.1, emptySlot CACHE_DURATION)) }

/-- The value an expression `cache[cacheKey].data` evaluates to in state `s`:
a stored value, or the mock array as it stands now. -/
def readCacheData (s : State) (cacheKey : String) : Except JsError Payload :=
  match List.lookup cacheKey s.cache with
  | none => .error .typeError
  | some cacheItem =>
    match cacheItem.data with
    | .value p => .ok p
    | .mockRef => .ok (.list s.mockOrganizations)

/-- The callback `o => o.id === id`. -/
def hasId (id : Prim) (o : Obj) : Bool :=
  objGet o "id" == id

/-! ## API functions -/

/-- The function `getOrganizations` (lines 148-175). `tCheck` is the clock
read by `isCacheValid`, `remote` the settled request, `tStatus` and
`tCache` the clock reads of `serverStatus.lastCheck = Date.now()` and of
`setCache`. -/
def getOrganizations (CACHE_DURATION : Int) (s : State) (forceRefresh : Bool) (tCheck : Int)
    (remote : Except RemoteError Payload) (tStatus tCache : Int) : Outcome :=
  if !forceRefresh && isCacheValid s "organizations" tCheck then
    { result := readCacheData s "organizations", state := s, calls := 0 }
  else
    match remote with
    | .ok data =>
      let s1 := { s with serverStatus :=
        { s.serverStatus with available := true, lastCheck := tStatus } }
      { result := .ok data
        state := setCache CACHE_DURATION s1 "organizations" (.value data) tCache
        calls := 1 }
    | .error error =>
      if error.name == "AbortError" then
        { result := .error (.remote error), state := s, calls := 1 }
      else
        let s1 := { s with serverStatus :=
          { s.serverStatus with available := false, lastCheck := tStatus } }
        { result := .ok (.list s.mockOrganizations)
          state := setCache CACHE_DURATION s1 "organizations" .mockRef tCache
          calls := 1 }

/-- The remote part of `getOrganizationById` (lines 188-203). -/
def getOrganizationByIdRemote (s : State) (id : Prim)
    (remote : Except RemoteError Payload) (tStatus : Int) : Outcome :=
  match remote with
  | .ok data =>
    { result := .ok data
      state := { s with serverStatus :=
        { s.serverStatus with available := true, lastCheck := tStatus } }
      calls := 1 }
  | .error _ =>
    let s1 := { s with serverStatus :=
      { s.serverStatus with available := false, lastCheck := tStatus } }
    match s.mockOrganizations.find? (hasId id) with
    | some mockOrg => { result := .ok (.record mockOrg), state := s1, calls := 1 }
    | none => { result := .error (.notFoundById id), state := s1, calls := 1 }

/-- The function `getOrganizationById` (lines 181-204). Calling `.find` on
cached data that is not an array raises a `TypeError` outside the `try`. -/
def getOrganizationById (s : State) (id : Prim) (tCheck : Int)
    (remote : Except RemoteError Payload) (tStatus : Int) : Outcome :=
  if isCacheValid s "organizations" tCheck then
    match readCacheData s "organizations" with
    | .ok (.list xs) =>
      match xs.find? (hasId id) with
      | some org => { result := .ok (.record org), state := s, calls := 0 }
      | none => getOrganizationByIdRemote s id remote tStatus
    | _ => { result := .error .typeError, state := s, calls := 0 }
  else
    getOrganizationByIdRemote s id remote tStatus

/-- The record `newOrg` built by `createOrganization` (lines 211-216);
`uuid` is the value `generateUUID()` returns when it is evaluated. -/
def newOrg (organization : Obj) (uuid : String) (tCreated tUpdated : String) : Obj :=
  objSet
    (objSet
      (objSet (objSpread [] organization) "id"
        (if (objGet organization "id").truthy then objGet organization "id" else .str uuid))
      "createdAt" (.str tCreated))
    "updatedAt" (.str tUpdated)

/-- The function `createOrganization` (lines 210-236). -/
def createOrganization (CACHE_DURATION : Int) (s : State) (organization : Obj) (uuid : String)
    (tCreated tUpdated : String) (remote : Except RemoteError Payload) : Outcome :=
  let org := newOrg organization uuid tCreated tUpdated
  match remote with
  | .ok data =>
    let s1 := { s with serverStatus := { s.serverStatus with available := true } }
    { result := .ok data
      state := clearCache CACHE_DURATION s1 (some "organizations")
      calls := 1 }
  | .error _ =>
    let s1 := { s with serverStatus := { s.serverStatus with available := false } }
    if s1.mockOrganizations.any (fun o => objGet o "id" == objGet org "id") then
      { result := .error .duplicateId, state := s1, calls := 1 }
    else
      let s2 := { s1 with mockOrganizations := s1.mockOrganizations ++ [org] }
      { result := .ok (.record org)
        state := clearCache CACHE_DURATION s2 (some "organizations")
        calls := 1 }

/-- The record written by `updateOrganization` on the fallback path (lines
261-265). -/
def mergedOrg (old updatedData : Obj) (tUpdated : String) : Obj :=
  objSet (objSpread (objSpread [] old) updatedData) "updatedAt" (.str tUpdated)

/-- The function `updateOrganization` (lines 243-270). The `updatedAt` put
into the request body only travels to the server and is not an input here;
`tUpdated` is the clock read of the fallback path. -/
def updateOrganization (CACHE_DURATION : Int) (s : State) (id : Prim) (updatedData : Obj)
    (remote : Except RemoteError Payload) (tUpdated : String) : Outcome :=
  match remote with
  | .ok data =>
    let s1 := { s with serverStatus := { s.serverStatus with available := true } }
    { result := .ok data
      state := clearCache CACHE_DURATION s1 (some "organizations")
      calls := 1 }
  | .error _ =>
    let s1 := { s with serverStatus := { s.serverStatus with available := false } }
    match s1.mockOrganizations.findIdx? (hasId id) with
    | none => { result := .error .notFound, state := s1, calls := 1 }
    | some index =>
      let updated := mergedOrg (s1.mockOrganizations.getD index []) updatedData tUpdated
      let s2 := { s1 with mockOrganizations := s1.mockOrganizations.set index updated }
      { result := .ok (.record updated)
        state := clearCache CACHE_DURATION s2 (some "organizations")
        calls := 1 }

/-- The function `deleteOrganization` (lines 276-295). -/
def deleteOrganization (CACHE_DURATION : Int) (s : State) (id : Prim)
    (remote : Except RemoteError Payload) (tDeleted : String) : Outcome :=
  match remote with
  | .ok data =>
    let s1 := { s with serverStatus := { s.serverStatus with available := true } }
    { result := .ok data
      state := clearCache CACHE_DURATION s1 (some "organizations")
      calls := 1 }
  | .error _ =>
    let s1 := { s with serverStatus := { s.serverStatus with available := false } }
    match s1.mockOrganizations.findIdx? (hasId id) with
    | none => { result := .error .notFound, state := s1, calls := 1 }
    | some index =>
      let s2 := { s1 with mockOrganizations := s1.mockOrganizations.eraseIdx index }
      { result := .ok (.record
          [("success", .bool true), ("id", id), ("deletedAt", .str tDeleted)])
        state := clearCache CACHE_DURATION s2 (some "organizations")
        calls := 1 }

/-- The function `getServerStatus` (lines 348-350). -/
def getServerStatus (s : State) : Bool :=
  s.serverStatus.available

/-- The function `clearOrganizationsCache` (lines 371-373). -/
def clearOrganizationsCache (CACHE_DURATION : Int) (s : State) : State :=
  clearCache CACHE_DURATION s (some "organizations")

/-- One call of a write-style entry point of the module, with the inputs it
consumes: `createOrganization`, `updateOrganization`, `deleteOrganization`
or `clearOrganizationsCache`. -/
inductive WriteCall where
  | create (organization : Obj) (uuid tCreated tUpdated : String)
      (remote : Except RemoteError Payload)
  | update (id : Prim) (updatedData : Obj) (remote : Except RemoteError Payload)
      (tUpdated : String)
  | delete (id : Prim) (remote : Except RemoteError Payload) (tDeleted : String)
  | clearOrganizationsCache

/-- Running one write-style call on a module state. -/
def performWrite (CACHE_DURATION : Int) (s : State) : WriteCall → Outcome
  | .create organization uuid tCreated tUpdated remote =>
    createOrganization CACHE_DURATION s organization uuid tCreated tUpdated remote
  | .update id updatedData remote tUpdated =>
    updateOrganization CACHE_DURATION s id updatedData remote tUpdated
  | .delete id remote tDeleted =>
    deleteOrganization CACHE_DURATION s id remote tDeleted
  | .clearOrganizationsCache =>
    { result := .ok (.prim .undefined), state := clearOrganizationsCache CACHE_DURATION s,
      calls := 0 }

/-! ## Mock report generator

Numbers of the report are exact rationals: the generator is given in exact
arithmetic, which the claims about counts, ranges, dates and aggregates are
stated on. The second pass, which computes profit and profitability, is also
given in double arithmetic (`withProfitDouble`), for the claims about the
exact stored values of those two fields. A value of `Math.random()` is a rational `r`, by
contract `0 ≤ r < 1`; the generator reads draw `0` for the record count and
draws `5 * i + 1 .. 5 * i + 5` for record `i`. A date is a count of wall-clock
milliseconds in a zone whose offset does not change; the text
`format('YYYY-MM-DD')` produces is identified with the civil day it names. -/

/-- The list `PRODUCT_CATEGORIES` (lines 53-56). -/
def PRODUCT_CATEGORIES : List String :=
  ["Электроника", "Одежда", "Продукты", "Мебель", "Канцелярия",
   "Автозапчасти", "Косметика", "Книги", "Игрушки", "Спорттовары"]

/-- A date argument of `calculateReport`: absent or falsy, truthy but not a
date `dayjs` can parse, or an instant. -/
inductive DateInput where
  | missing
  | invalid
  | at (ms : Int)
  deriving DecidableEq, Repr

/-- Truthiness of a date argument (`!startDate`). -/
def DateInput.truthy : DateInput → Bool
  | .missing => false
  | .invalid => true
  | .at _ => true

/-- The time value of `dayjs(d)`; `none` is an invalid date (`NaN`). -/
def dayjsValue : DateInput → Option Int
  | .missing => none
  | .invalid => none
  | .at ms => some ms

/-- Milliseconds of a day, the constant `dayjs` divides by. -/
def MILLISECONDS_A_DAY : Int := 86400000

/-- The test `dayjs(a).isBefore(dayjs(b))`; a comparison with an invalid date
is false. -/
def isBefore (a b : DateInput) : Bool :=
  match dayjsValue a, dayjsValue b with
  | some x, some y => decide (x < y)
  | _, _ => false

/-- The value `dayjs(endDate).diff(dayjs(startDate), 'day')`: whole days,
truncated toward zero; `none` is `NaN`. -/
def diffDays (endDate startDate : DateInput) : Option Int :=
  match dayjsValue endDate, dayjsValue startDate with
  | some e, some b => some (Int.tdiv (e - b) MILLISECONDS_A_DAY)
  | _, _ => none

/-- The offset `Math.floor(Math.random() * (daysDiff + 1))` of line 116. -/
def dayOffset (daysDiff : Option Int) (r : ℚ) : Option Int :=
  daysDiff.map (fun d => ⌊r * ((d : ℚ) + 1)⌋)

/-- The civil day named by `dayjs(startDate).add(offset, 'day').format('YYYY-MM-DD')`;
`none` is the text `Invalid Date`. -/
def formatAddDays (startDate : DateInput) (offset : Option Int) : Option Int :=
  match dayjsValue startDate, offset with
  | some b, some k => some ((b + k * MILLISECONDS_A_DAY) / MILLISECONDS_A_DAY)
  | _, _ => none

/-- The civil day of a date argument. -/
def civilDay (d : DateInput) : Option Int :=
  (dayjsValue d).map (fun ms => ms / MILLISECONDS_A_DAY)

/-- The number `parseFloat(x.toFixed(2))`: the nearest multiple of 0.01, a tie
going away from zero. -/
def toFixed2 (x : ℚ) : ℚ :=
  if x < 0 then -((⌊(-x) * 100 + 1 / 2⌋ : ℚ) / 100) else (⌊x * 100 + 1 / 2⌋ : ℚ) / 100

/-- Conversion of a primitive to text inside a template literal. -/
def jsString : Prim → String
  | .undefined => "undefined"
  | .null => "null"
  | .bool b => if b then "true" else "false"
  | .num n => toString n
  | .str s => s

/-- The method `padStart(6, '0')`. -/
def padStart6 (s : String) : String :=
  String.mk (List.replicate (6 - s.length) '0') ++ s

/-- One line item of a mock report (lines 119-132). -/
structure ReportRecord where
  id : String
  productId : String
  name : String
  category : Option String
  quantity : Int
  price : ℚ
  cost : ℚ
  profit : ℚ
  profitability : ℚ
  date : Option Int
  organization : Prim
  organizationId : Prim
  deriving DecidableEq

/-- The expression `mockOrganizations.find(o => o.id === organizationId) || fallback`. -/
def findOrgOr (s : State) (organizationId : Prim) (fallback : Obj) : Obj :=
  (s.mockOrganizations.find? (hasId organizationId)).getD fallback

/-- The count `recordCount` of line 112. -/
def recordCount (r : ℚ) : Int :=
  max 50 (min 1000 (⌊r * 500⌋ + 500))

/-- The element `PRODUCT_CATEGORIES[Math.floor(r * PRODUCT_CATEGORIES.length)]`;
`none` is `undefined`. -/
def pickCategory (r : ℚ) : Option String :=
  if 0 ≤ ⌊r * (PRODUCT_CATEGORIES.length : ℚ)⌋ then
    PRODUCT_CATEGORIES.get? (⌊r * (PRODUCT_CATEGORIES.length : ℚ)⌋).toNat
  else
    none

/-- The record the `Array.from` callback builds for index `i` (lines
114-132), profit and profitability still `0`. -/
def rawRecord (s : State) (startDate endDate : DateInput) (organizationId : Prim)
    (draw : Nat → ℚ) (clock : Nat → Int) (i : Nat) : ReportRecord :=
  let org := findOrgOr s organizationId
    [("id", organizationId), ("name", .str "Тестовая организация")]
  let daysDiff := diffDays endDate startDate
  { id := jsString organizationId ++ "-" ++ toString (i + 1) ++ "-" ++ toString (clock i)
    productId := "PRD-" ++ padStart6 (toString (i + 1))
    name := "Товар " ++ toString (i + 1)
    category := pickCategory (draw (5 * i + 2))
    quantity := ⌊draw (5 * i + 3) * 1000⌋ + 1
    price := toFixed2 (draw (5 * i + 4) * 10000 + 100)
    cost := toFixed2 (draw (5 * i + 5) * 8000 + 50)
    profit := 0
    profitability := 0
    date := formatAddDays startDate (dayOffset daysDiff (draw (5 * i + 1)))
    organization := objGet org "name"
    organizationId := objGet org "id" }

/-- The second pass of `generateMockReportData` (lines 133-138), in exact
arithmetic. -/
def withProfit (item : ReportRecord) : ReportRecord :=
  let profit := toFixed2 (item.price - item.cost)
  { item with
    profit := profit
    profitability := toFixed2 (profit / item.cost * 100) }

/-- The function `generateMockReportData` (lines 105-139). -/
def generateMockReportData (s : State) (startDate endDate : DateInput) (organizationId : Prim)
    (draw : Nat → ℚ) (clock : Nat → Int) : List ReportRecord :=
  ((List.range (recordCount (draw 0)).toNat).map
    (rawRecord s startDate endDate organizationId draw clock)).map withProfit

/-- The object `meta` of a mock report (lines 332-340). -/
structure ReportMeta where
  organizationId : Prim
  organizationName : Prim
  periodStart : DateInput
  periodEnd : DateInput
  generatedAt : String
  totalRecords : Nat
  totalProfit : ℚ
  averageProfitability : ℚ
  deriving DecidableEq

/-- What `calculateReport` returns: the server payload, or `{ data, meta }`. -/
inductive ReportResult where
  | server (p : Payload)
  | mock (data : List ReportRecord) (info : ReportMeta)

/-- What one call of `calculateReport` produces. -/
structure ReportOutcome where
  result : Except JsError ReportResult
  state : State
  calls : Nat

/-- The function `calculateReport` (lines 302-343); `tGenerated` is the value
of `new Date().toISOString()`. -/
def calculateReport (s : State) (startDate endDate : DateInput) (organizationId : Prim)
    (remote : Except RemoteError Payload) (draw : Nat → ℚ) (clock : Nat → Int)
    (tGenerated : String) : ReportOutcome :=
  if !startDate.truthy || !endDate.truthy then
    { result := .error .missingPeriod, state := s, calls := 0 }
  else if isBefore endDate startDate then
    { result := .error .invalidRange, state := s, calls := 0 }
  else
    match remote with
    | .ok data =>
      { result := .ok (.server data)
        state := { s with serverStatus := { s.serverStatus with available := true } }
        calls := 1 }
    | .error _ =>
      let s1 := { s with serverStatus := { s.serverStatus with available := false } }
      let mockData := generateMockReportData s1 startDate endDate organizationId draw clock
      let org := findOrgOr s1 organizationId [("name", .str "Тестовая организация")]
      { result := .ok (.mock mockData
          { organizationId := organizationId
            organizationName := objGet org "name"
            periodStart := startDate
            periodEnd := endDate
            generatedAt := tGenerated
            totalRecords := mockData.length
            totalProfit := mockData.foldl (fun sum item => sum + item.profit) 0
            averageProfitability :=
              mockData.foldl (fun sum item => sum + item.profitability) 0 / mockData.length })
        state := s1
        calls := 1 }

/-- The function `checkServerConnection` (lines 355-366). -/
def checkServerConnection (s : State) (remote : Except RemoteError Payload) (tStatus : Int) :
    Outcome :=
  match remote with
  | .ok _ =>
    { result := .ok (.prim (.bool true))
      state := { s with serverStatus :=
        { s.serverStatus with available := true, lastCheck := tStatus } }
      calls := 1 }
  | .error _ =>
    { result := .ok (.prim (.bool false))
      state := { s with serverStatus :=
        { s.serverStatus with available := false, lastCheck := tStatus } }
      calls := 1 }

/-- One call of an entry point of the module that may contact the server,
with the inputs it consumes. -/
inductive ApiCall where
  | getOrganizations (forceRefresh : Bool) (tCheck : Int)
      (remote : Except RemoteError Payload) (tStatus tCache : Int)
  | getOrganizationById (id : Prim) (tCheck : Int) (remote : Except RemoteError Payload)
      (tStatus : Int)
  | createOrganization (organization : Obj) (uuid tCreated tUpdated : String)
      (remote : Except RemoteError Payload)
  | updateOrganization (id : Prim) (updatedData : Obj) (remote : Except RemoteError Payload)
      (tUpdated : String)
  | deleteOrganization (id : Prim) (remote : Except RemoteError Payload) (tDeleted : String)
  | calculateReport (startDate endDate : DateInput) (organizationId : Prim)
      (remote : Except RemoteError Payload) (draw : Nat → ℚ) (clock : Nat → Int)
      (tGenerated : String)
  | checkServerConnection (remote : Except RemoteError Payload) (tStatus : Int)

/-- The settled request a call would see if it sends one. -/
def ApiCall.remote : ApiCall → Except RemoteError Payload
  | .getOrganizations _ _ remote _ _ => remote
  | .getOrganizationById _ _ remote _ => remote
  | .createOrganization _ _ _ _ remote => remote
  | .updateOrganization _ _ remote _ => remote
  | .deleteOrganization _ remote _ => remote
  | .calculateReport _ _ _ remote _ _ _ => remote
  | .checkServerConnection remote _ => remote

/-- Whether a settled request succeeded. -/
def succeeded : Except RemoteError Payload → Bool
  | .ok _ => true
  | .error _ => false

/-- Whether the request of a call was cancelled by the caller: only
`getOrganizations` hands a cancellation signal to its request, and it
recognises the cancellation by the error name `AbortError`. -/
def ApiCall.cancelled : ApiCall → Bool
  | .getOrganizations _ _ (.error error) _ _ => error.name == "AbortError"
  | _ => false

/-- Running one call on a module state: the state afterwards and the number
of requests sent. -/
def runApiCall (CACHE_DURATION : Int) (s : State) : ApiCall → State × Nat
  | .getOrganizations forceRefresh tCheck remote tStatus tCache =>
    ((getOrganizations CACHE_DURATION s forceRefresh tCheck remote tStatus tCache).state,
     (getOrganizations CACHE_DURATION s forceRefresh tCheck remote tStatus tCache).calls)
  | .getOrganizationById id tCheck remote tStatus =>
    ((getOrganizationById s id tCheck remote tStatus).state,
     (getOrganizationById s id tCheck remote tStatus).calls)
  | .createOrganization organization uuid tCreated tUpdated remote =>
    ((createOrganization CACHE_DURATION s organization uuid tCreated tUpdated remote).state,
     (createOrganization CACHE_DURATION s organization uuid tCreated tUpdated remote).calls)
  | .updateOrganization id updatedData remote tUpdated =>
    ((updateOrganization CACHE_DURATION s id updatedData remote tUpdated).state,
     (updateOrganization CACHE_DURATION s id updatedData remote tUpdated).calls)
  | .deleteOrganization id remote tDeleted =>
    ((deleteOrganization CACHE_DURATION s id remote tDeleted).state,
     (deleteOrganization CACHE_DURATION s id remote tDeleted).calls)
  | .calculateReport startDate endDate organizationId remote draw clock tGenerated =>
    ((calculateReport s startDate endDate organizationId remote draw clock tGenerated).state,
     (calculateReport s startDate endDate organizationId remote draw clock tGenerated).calls)
  | .checkServerConnection remote tStatus =>
    ((checkServerConnection s remote tStatus).state,
     (checkServerConnection s remote tStatus).calls)

/-- A sequence of draws in `[0, 1)`: the price draw and the cost draw of
record `0` are `1 - 2 ^ (-21)`, every other draw is `0`. -/
def upperEdgeDraw : Nat → ℚ :=
  fun n => if n = 4 ∨ n = 5 then 2097151 / 2097152 else 0

/-- The error classes of the module's error taxonomy. No function of `api.js`
raises `invalidResponseShape`: the view raises it on the value
`getOrganizations` returned. A `TypeError` of the runtime is `runtime`. -/
inductive ErrorKind where
  | networkUnreachable
  | cancelled
  | notFound
  | duplicateId
  | missingPeriod
  | invalidRange
  | invalidResponseShape
  | runtime
  deriving DecidableEq, Repr

/-- The class of an error an operation raised; a request error is a
cancellation exactly when its name is `AbortError`. -/
def JsError.kind : JsError → ErrorKind
  | .remote e => if e.name == "AbortError" then .cancelled else .networkUnreachable
  | .notFoundById _ => .notFound
  | .notFound => .notFound
  | .duplicateId => .duplicateId
  | .missingPeriod => .missingPeriod
  | .invalidRange => .invalidRange
  | .typeError => .runtime

/-- The module state after a sequence of calls, run in order. -/
def runSession (CACHE_DURATION : Int) (s : State) (calls : List ApiCall) : State :=
  calls.foldl (fun st c => (runApiCall CACHE_DURATION st c).1) s

/-- The organizations cache slot is empty or refers to the mock array. -/
def cacheFollowsMock (s : State) : Prop :=
  ∃ item, List.lookup "organizations" s.cache = some item ∧
    (item.data = .mockRef ∨ item.data = .value (.prim .null))

/-! ## The second pass in double arithmetic -/

/-- The integer nearest to a rational, a tie going to the even one. -/
def roundHalfEven (y : ℚ) : Int :=
  if y - (⌊y⌋ : ℚ) < 1 / 2 then ⌊y⌋
  else if 1 / 2 < y - (⌊y⌋ : ℚ) then ⌊y⌋ + 1
  else if ⌊y⌋ % 2 = 0 then ⌊y⌋ else ⌊y⌋ + 1

/-- The double nearest to a rational: IEEE 754 binary64 rounding to nearest,
ties to even, with 53 bits of significand. The exponent range is not
bounded: overflow and subnormal numbers, which no value of a report comes
near, are not modelled. -/
def roundDouble (x : ℚ) : ℚ :=
  if x = 0 then 0
  else (roundHalfEven (x / (2 : ℚ) ^ (Int.log 2 |x| - 52)) : ℚ) * (2 : ℚ) ^ (Int.log 2 |x| - 52)

/-- The second pass of `generateMockReportData` (lines 133-138) in double
arithmetic: every subtraction, division and multiplication is rounded to a
double, `toFixed(2)` rounds the exact value of its double to two decimals,
and `parseFloat` gives the double nearest to that decimal. -/
def withProfitDouble (item : ReportRecord) : ReportRecord :=
  let profit := roundDouble (toFixed2 (roundDouble (item.price - item.cost)))
  { item with
    profit := profit
    profitability :=
      roundDouble (toFixed2 (roundDouble (roundDouble (profit / item.cost) * 100))) }

/-- A record as the first pass stores it (lines 119-132): the price and the
cost are the doubles nearest to the two-decimal values `np / 100` and
`nc / 100` (`parseFloat` of a `toFixed(2)` text), profit and profitability are
still `0`. The other fields play no part in the second pass. -/
def storedRecord (np nc : Int) : ReportRecord :=
  { id := "x-1-0"
    productId := "PRD-000001"
    name := "Товар 1"
    category := some "Электроника"
    quantity := 1
    price := roundDouble ((np : ℚ) / 100)
    cost := roundDouble ((nc : ℚ) / 100)
    profit := 0
    profitability := 0
    date := some 0
    organization := .str "Тестовая организация"
    organizationId := .str "x" }

/-- Well-formedness of a record: a JavaScript object holds each own key
once. -/
def keysDistinct (o : Obj) : Prop :=
  (o.map Prod.fst).Nodup

/-- Well-formedness of a record is decidable. -/
instance instDecidableKeysDistinct (o : Obj) : Decidable (keysDistinct o) :=
  inferInstanceAs (Decidable ((o.map Prod.fst).Nodup))

/-- A network failure as the request library reports it (not a
cancellation). -/
def networkError : RemoteError :=
  { name := "AxiosError", message := "Network Error" }

/-- The error `axios` rejects a request with when the `AbortSignal` passed as
`signal` is aborted. -/
def canceledError : RemoteError :=
  { name := "CanceledError", message := "canceled" }

/-! ## Lemmas on the cache store -/

theorem lookup_map_assign {β : Type} (c : List (String × β)) (k : String) (item : β)
    (h : c.any (fun p => p.1 == k) = true) :
    List.lookup k (c.map (fun p => if p.1 == k then (p.1, item) else p)) = some item := by
  induction c with
  | nil => simp at h
  | cons p t ih =>
    obtain ⟨a, b⟩ := p
    by_cases hb : a = k
    · subst hb
      rw [List.map_cons, if_pos (by simp)]
      exact List.lookup_cons_self
    · have hne : (k == a) = false := by
        simpa using fun hk => hb hk.symm
      have hne2 : ¬ ((a == k) = true) := by simpa using hb
      have ht : t.any (fun p => p.1 == k) = true := by
        rw [List.any_cons] at h
        simpa [hb] using h
      rw [List.map_cons, if_neg hne2, List.lookup_cons, hne]
      exact ih ht

theorem lookup_append_new {β : Type} (c : List (String × β)) (k : String) (item : β)
    (h : ¬ c.any (fun p => p.1 == k) = true) :
    List.lookup k (c ++ [(k, item)]) = some item := by
  induction c with
  | nil => simp [List.lookup]
  | cons p t ih =>
    obtain ⟨a, b⟩ := p
    rw [List.any_cons, Bool.or_eq_true, not_or] at h
    have hne : (k == a) = false := by
      simpa using fun hk => h.1 (by simp [hk])
    rw [List.cons_append, List.lookup_cons, hne]
    exact ih h.2

theorem lookup_propAssign_self {β : Type} (c : List (String × β)) (k : String) (item : β) :
    List.lookup k (propAssign c k item) = some item := by
  unfold propAssign
  split
  · rename_i h
    exact lookup_map_assign c k item h
  · rename_i h
    exact lookup_append_new c k item h

theorem lookup_map_assign_ne {β : Type} (c : List (String × β)) (k j : String) (item : β)
    (hjk : j ≠ k) :
    List.lookup j (c.map (fun p => if p.1 == k then (p.1, item) else p)) = List.lookup j c := by
  induction c with
  | nil => rfl
  | cons p t ih =>
    obtain ⟨a, b⟩ := p
    by_cases hb : a = k
    · subst hb
      have hne : (j == a) = false := by simpa using hjk
      rw [List.map_cons, if_pos (by simp), List.lookup_cons, List.lookup_cons, hne]
      exact ih
    · have hne2 : ¬ ((a == k) = true) := by simpa using hb
      rw [List.map_cons, if_neg hne2, List.lookup_cons, List.lookup_cons, ih]

theorem lookup_propAssign_ne {β : Type} (c : List (String × β)) (k j : String) (item : β)
    (hjk : j ≠ k) :
    List.lookup j (propAssign c k item) = List.lookup j c := by
  unfold propAssign
  split
  · exact lookup_map_assign_ne c k j item hjk
  · have hne : (j == k) = false := by simpa using hjk
    rw [List.lookup_append]
    simp [List.lookup, hne]

theorem objGet_objSet_self (o : Obj) (k : String) (v : Prim) :
    objGet (objSet o k v) k = v := by
  simp [objGet, objSet, lookup_propAssign_self]

theorem objGet_objSet_ne (o : Obj) (k j : String) (v : Prim) (hjk : j ≠ k) :
    objGet (objSet o k v) j = objGet o j := by
  simp [objGet, objSet, lookup_propAssign_ne _ _ _ _ hjk]

theorem lookup_setCache (D : Int) (s : State) (k : String) (data : CacheData) (now : Int) :
    List.lookup k (setCache D s k data now).cache
      = some { data := data, timestamp := now, duration := D } := by
  simp [setCache, lookup_propAssign_self]

theorem lookup_clearCache_organizations (D : Int) (s : State) :
    List.lookup "organizations" (clearCache D s (some "organizations")).cache
      = some (emptySlot D) := by
  simp [clearCache, lookup_propAssign_self]

theorem isCacheValid_clearCache (D : Int) (s : State) (now : Int) :
    isCacheValid (clearCache D s (some "organizations")) "organizations" now = false := by
  simp [isCacheValid, lookup_clearCache_organizations, emptySlot, CacheData.truthy,
    Payload.truthy, Prim.truthy]

@[simp] theorem setCache_mockOrganizations (D : Int) (s : State) (k : String) (data : CacheData)
    (now : Int) : (setCache D s k data now).mockOrganizations = s.mockOrganizations := rfl

@[simp] theorem setCache_serverStatus (D : Int) (s : State) (k : String) (data : CacheData)
    (now : Int) : (setCache D s k data now).serverStatus = s.serverStatus := rfl

@[simp] theorem clearCache_mockOrganizations (D : Int) (s : State) (k : Option String) :
    (clearCache D s k).mockOrganizations = s.mockOrganizations := by
  unfold clearCache
  split
  · split <;> rfl
  · rfl

@[simp] theorem clearCache_serverStatus (D : Int) (s : State) (k : Option String) :
    (clearCache D s k).serverStatus = s.serverStatus := by
  unfold clearCache
  split
  · split <;> rfl
  · rfl

/-! ## getOrganizations -/

/-- C1: a `getOrganizations` call that contacts the remote (forced refresh, or
no valid cache entry) and whose request is not cancelled sends one request
and does not raise. On success it returns the server payload, on failure the
mock list; in both cases the organizations cache slot then holds exactly the
returned value with the clock value read by `setCache` as timestamp, and
`serverStatus.available` is `true` on success and `false` on failure. -/
theorem getOrganizations_remote_path (D : Int) (s : State) (forceRefresh : Bool)
    (tCheck : Int) (remote : Except RemoteError Payload) (tStatus tCache : Int)
    (hcontact : forceRefresh = true ∨ isCacheValid s "organizations" tCheck = false)
    (hnc : ∀ e, remote = .error e → e.name ≠ "AbortError") :
    (getOrganizations D s forceRefresh tCheck remote tStatus tCache).calls = 1 ∧
    (∀ data, remote = .ok data →
      (getOrganizations D s forceRefresh tCheck remote tStatus tCache).result = .ok data ∧
      List.lookup "organizations"
          (getOrganizations D s forceRefresh tCheck remote tStatus tCache).state.cache
        = some { data := .value data, timestamp := tCache, duration := D } ∧
      (getOrganizations D s forceRefresh tCheck remote tStatus tCache).state.serverStatus.available
        = true) ∧
    (∀ e, remote = .error e →
      (getOrganizations D s forceRefresh tCheck remote tStatus tCache).result
        = .ok (.list s.mockOrganizations) ∧
      List.lookup "organizations"
          (getOrganizations D s forceRefresh tCheck remote tStatus tCache).state.cache
        = some { data := .mockRef, timestamp := tCache, duration := D } ∧
      (getOrganizations D s forceRefresh tCheck remote tStatus tCache).state.serverStatus.available
        = false) ∧
    readCacheData (getOrganizations D s forceRefresh tCheck remote tStatus tCache).state
        "organizations"
      = (getOrganizations D s forceRefresh tCheck remote tStatus tCache).result := by
  have hguard : (!forceRefresh && isCacheValid s "organizations" tCheck) = false := by
    rcases hcontact with h | h <;> simp [h]
  cases remote with
  | ok data =>
    simp [getOrganizations, hguard, lookup_setCache, readCacheData]
  | error e =>
    have hne : (e.name == "AbortError") = false := by
      simpa using hnc e rfl
    simp [getOrganizations, hguard, hne, lookup_setCache, readCacheData]

/-- Witness for C1: the first call of a session, with the server unreachable. -/
theorem getOrganizations_remote_path_witness :
    (getOrganizations 30000 (initialState 30000) false 1000
        (.error { name := "AxiosError", message := "Network Error" }) 1001 1002).calls = 1 :=
  (getOrganizations_remote_path 30000 (initialState 30000) false 1000
    (.error { name := "AxiosError", message := "Network Error" }) 1001 1002
    (Or.inr (by decide)) (by intro e h; cases h; decide)).1

theorem isCacheValid_of_lookup (s : State) (k : String) (now : Int) (item : CacheItem)
    (h : List.lookup k s.cache = some item) :
    isCacheValid s k now = (item.data.truthy && decide (now - item.timestamp < item.duration)) := by
  simp [isCacheValid, h]

/-- C2: from an empty organizations cache, a first `getOrganizations` call
(success with a list, or a failure that is not a cancellation) followed by a
second one without `forceRefresh` whose validity check happens less than the
cache duration after the first call wrote the cache: one request in total,
the second call returns what the first returned and leaves the whole module
state (cache, status, mock list) as the first call left it. -/
theorem getOrganizations_twice_within_ttl (D : Int) (s : State)
    (tCheck1 : Int) (remote1 : Except RemoteError Payload) (tStatus1 tCache1 : Int)
    (tCheck2 : Int) (remote2 : Except RemoteError Payload) (tStatus2 tCache2 : Int)
    (hempty : ∃ item, List.lookup "organizations" s.cache = some item ∧
      item.data = .value (.prim .null))
    (hrem : (∃ xs, remote1 = .ok (.list xs)) ∨
      (∃ e, remote1 = .error e ∧ e.name ≠ "AbortError"))
    (hwithin : tCheck2 - tCache1 < D) :
    (getOrganizations D s false tCheck1 remote1 tStatus1 tCache1).calls
      + (getOrganizations D (getOrganizations D s false tCheck1 remote1 tStatus1 tCache1).state
          false tCheck2 remote2 tStatus2 tCache2).calls = 1 ∧
    (getOrganizations D (getOrganizations D s false tCheck1 remote1 tStatus1 tCache1).state
        false tCheck2 remote2 tStatus2 tCache2).result
      = (getOrganizations D s false tCheck1 remote1 tStatus1 tCache1).result ∧
    (getOrganizations D (getOrganizations D s false tCheck1 remote1 tStatus1 tCache1).state
        false tCheck2 remote2 tStatus2 tCache2).state
      = (getOrganizations D s false tCheck1 remote1 tStatus1 tCache1).state := by
  obtain ⟨item, hitem, hnull⟩ := hempty
  have hinv : isCacheValid s "organizations" tCheck1 = false := by
    rw [isCacheValid_of_lookup s _ _ item hitem, hnull]
    simp [CacheData.truthy, Payload.truthy, Prim.truthy]
  rcases hrem with ⟨xs, rfl⟩ | ⟨e, rfl, hne⟩
  · have h1 : getOrganizations D s false tCheck1 (.ok (.list xs)) tStatus1 tCache1
        = { result := .ok (.list xs)
            state := setCache D { s with serverStatus :=
              { s.serverStatus with available := true, lastCheck := tStatus1 } }
              "organizations" (.value (.list xs)) tCache1
            calls := 1 } := by
      simp [getOrganizations, hinv]
    rw [h1]
    have hv : isCacheValid (setCache D { s with serverStatus :=
          { s.serverStatus with available := true, lastCheck := tStatus1 } }
          "organizations" (.value (.list xs)) tCache1) "organizations" tCheck2 = true := by
      rw [isCacheValid_of_lookup _ _ _ _ (lookup_setCache D _ _ _ _)]
      simp [CacheData.truthy, Payload.truthy, hwithin]
    simp [getOrganizations, hv, readCacheData, lookup_setCache]
  · have hne2 : (e.name == "AbortError") = false := by simpa using hne
    have h1 : getOrganizations D s false tCheck1 (.error e) tStatus1 tCache1
        = { result := .ok (.list s.mockOrganizations)
            state := setCache D { s with serverStatus :=
              { s.serverStatus with available := false, lastCheck := tStatus1 } }
              "organizations" .mockRef tCache1
            calls := 1 } := by
      simp [getOrganizations, hinv, hne2]
    rw [h1]
    have hv : isCacheValid (setCache D { s with serverStatus :=
          { s.serverStatus with available := false, lastCheck := tStatus1 } }
          "organizations" .mockRef tCache1) "organizations" tCheck2 = true := by
      rw [isCacheValid_of_lookup _ _ _ _ (lookup_setCache D _ _ _ _)]
      simp [CacheData.truthy, hwithin]
    simp [getOrganizations, hv, readCacheData, lookup_setCache]

/-- Witness for C2: the server answers the first call with an empty list; the
second call comes 29999 ms after the cache was written. -/
theorem getOrganizations_twice_within_ttl_witness :
    (getOrganizations 30000
        (getOrganizations 30000 (initialState 30000) false 1000 (.ok (.list [])) 1001 1002).state
        false 31001 (.ok (.list [[("id", .str "x")]])) 31002 31003).result
      = (getOrganizations 30000 (initialState 30000) false 1000 (.ok (.list [])) 1001 1002).result :=
  (getOrganizations_twice_within_ttl 30000 (initialState 30000)
    1000 (.ok (.list [])) 1001 1002 31001 (.ok (.list [[("id", .str "x")]])) 31002 31003
    ⟨emptySlot 30000, by decide, rfl⟩ (Or.inl ⟨[], rfl⟩) (by decide)).2.1

/-- C3: when the organizations slot holds an entry with timestamp `t` and
duration `D` and the clock read by the validity check satisfies
`now - t ≥ D` (equality included), a `getOrganizations` call without
`forceRefresh` sends a request and behaves exactly like a forced refresh: the
cached data plays no part in its result. -/
theorem getOrganizations_after_ttl (CACHE_DURATION : Int) (s : State) (item : CacheItem)
    (now : Int) (remote : Except RemoteError Payload) (tStatus tCache : Int)
    (hitem : List.lookup "organizations" s.cache = some item)
    (hexpired : now - item.timestamp ≥ item.duration) :
    (getOrganizations CACHE_DURATION s false now remote tStatus tCache).calls = 1 ∧
    getOrganizations CACHE_DURATION s false now remote tStatus tCache
      = getOrganizations CACHE_DURATION s true now remote tStatus tCache := by
  have hinv : isCacheValid s "organizations" now = false := by
    rw [isCacheValid_of_lookup s _ _ item hitem]
    have : ¬ (now - item.timestamp < item.duration) := not_lt.mpr hexpired
    simp [this]
  cases remote with
  | ok data => simp [getOrganizations, hinv]
  | error e =>
    by_cases he : (e.name == "AbortError") = true
    · simp [getOrganizations, hinv, he]
    · simp [getOrganizations, hinv, he]

/-- Witness for C3: an entry written at time 1000 with duration 30000 is read
at time 31000, exactly one duration later. -/
theorem getOrganizations_after_ttl_witness :
    (getOrganizations 30000
        (setCache 30000 (initialState 30000) "organizations" (.value (.list [])) 1000)
        false 31000 (.ok (.list [])) 31001 31002).calls = 1 :=
  (getOrganizations_after_ttl 30000
    (setCache 30000 (initialState 30000) "organizations" (.value (.list [])) 1000)
    { data := .value (.list []), timestamp := 1000, duration := 30000 }
    31000 (.ok (.list [])) 31001 31002 (lookup_setCache _ _ _ _ _) (by decide)).1

/-- C4 (the code at the failing input): a forced refresh whose request is
cancelled through its signal is rejected by `axios` with `CanceledError`;
the test `error.name === 'AbortError'` of line 164 does not recognise it, so
the call does not reject: it returns the mock list, sets
`serverStatus.available` to `false`, refreshes `serverStatus.lastCheck` and
overwrites the cached server list with the mock list. -/
theorem getOrganizations_cancellation_falls_back :
    (getOrganizations 30000
        (setCache 30000 (initialState 30000) "organizations" (.value (.list [])) 1000)
        true 2000 (.error canceledError) 2001 2002).result
      = .ok (.list mockOrganizations) ∧
    (getOrganizations 30000
        (setCache 30000 (initialState 30000) "organizations" (.value (.list [])) 1000)
        true 2000 (.error canceledError) 2001 2002).state.serverStatus
      = { available := false, lastCheck := 2001, checkInterval := 60000 } ∧
    List.lookup "organizations"
        (getOrganizations 30000
          (setCache 30000 (initialState 30000) "organizations" (.value (.list [])) 1000)
          true 2000 (.error canceledError) 2001 2002).state.cache
      = some { data := .mockRef, timestamp := 2002, duration := 30000 } ∧
    (getOrganizations 30000
        (setCache 30000 (initialState 30000) "organizations" (.value (.list [])) 1000)
        true 2000 (.error canceledError) 2001 2002).state
      ≠ setCache 30000 (initialState 30000) "organizations" (.value (.list [])) 1000 := by
  refine ⟨by decide, by decide, by decide, by decide⟩

/-- Counterexample for C5: after one `createOrganization` that took the
fallback path, a failing `getOrganizations` returns six organizations, not
the five static ones. -/
theorem getOrganizations_fallback_not_static :
    (getOrganizations 30000
        (createOrganization 30000 (initialState 30000) [("name", .str "Новая")] "u-1"
          "2024-02-01T00:00:00Z" "2024-02-01T00:00:00Z" (.error networkError)).state
        false 5000 (.error networkError) 5001 5002).result
      ≠ .ok (.list mockOrganizations) := by
  decide

/-- C5 (amended): whenever `getOrganizations` takes the remote-failure path,
it returns the mock list as it stands at that moment and
`serverStatus.available` becomes `false`; the returned list is the five
static mock organizations when the mock list is still the static one. -/
theorem getOrganizations_fallback_current_mock (D : Int) (s : State) (forceRefresh : Bool)
    (tCheck : Int) (error : RemoteError) (tStatus tCache : Int)
    (hcontact : forceRefresh = true ∨ isCacheValid s "organizations" tCheck = false)
    (hfail : error.name ≠ "AbortError") :
    (getOrganizations D s forceRefresh tCheck (.error error) tStatus tCache).result
      = .ok (.list s.mockOrganizations) ∧
    (getOrganizations D s forceRefresh tCheck (.error error) tStatus tCache).state.serverStatus.available
      = false ∧
    (s.mockOrganizations = mockOrganizations →
      (getOrganizations D s forceRefresh tCheck (.error error) tStatus tCache).result
        = .ok (.list mockOrganizations)) := by
  have hguard : (!forceRefresh && isCacheValid s "organizations" tCheck) = false := by
    rcases hcontact with h | h <;> simp [h]
  have hne : (error.name == "AbortError") = false := by simpa using hfail
  refine ⟨by simp [getOrganizations, hguard, hne], by simp [getOrganizations, hguard, hne], ?_⟩
  intro hm
  simp [getOrganizations, hguard, hne, hm]

/-- Witness for C5 (amended): the first call of a session fails and returns
the five static organizations. -/
theorem getOrganizations_fallback_current_mock_witness :
    (getOrganizations 30000 (initialState 30000) false 1000 (.error networkError) 1001 1002).result
      = .ok (.list mockOrganizations) :=
  (getOrganizations_fallback_current_mock 30000 (initialState 30000) false 1000 networkError
    1001 1002 (Or.inr (by decide)) (by decide)).2.2 rfl

/-! ## createOrganization -/

theorem objGet_newOrg_id (organization : Obj) (uuid tCreated tUpdated : String) :
    objGet (newOrg organization uuid tCreated tUpdated) "id"
      = if (objGet organization "id").truthy then objGet organization "id" else .str uuid := by
  unfold newOrg
  rw [objGet_objSet_ne _ _ _ _ (by decide), objGet_objSet_ne _ _ _ _ (by decide),
    objGet_objSet_self]

/-- Counterexample for C6: once a fallback update has given a mock entry the
empty id, a payload with that same (empty) id is not rejected: the create
succeeds under a generated id and the mock list grows. -/
theorem createOrganization_empty_id_not_duplicate :
    (∃ o ∈ (updateOrganization 30000 (initialState 30000)
          (.str "11111111-1111-1111-1111-111111111111") [("id", .str "")]
          (.error networkError) "2024-02-01T00:00:00Z").state.mockOrganizations,
        objGet o "id" = objGet [("id", .str ""), ("name", .str "Копия")] "id") ∧
    (createOrganization 30000
        (updateOrganization 30000 (initialState 30000)
          (.str "11111111-1111-1111-1111-111111111111") [("id", .str "")]
          (.error networkError) "2024-02-01T00:00:00Z").state
        [("id", .str ""), ("name", .str "Копия")] "u-1"
        "2024-02-02T00:00:00Z" "2024-02-02T00:00:00Z" (.error networkError)).result
      ≠ .error .duplicateId ∧
    (createOrganization 30000
        (updateOrganization 30000 (initialState 30000)
          (.str "11111111-1111-1111-1111-111111111111") [("id", .str "")]
          (.error networkError) "2024-02-01T00:00:00Z").state
        [("id", .str ""), ("name", .str "Копия")] "u-1"
        "2024-02-02T00:00:00Z" "2024-02-02T00:00:00Z" (.error networkError)).state.mockOrganizations
      ≠ (updateOrganization 30000 (initialState 30000)
          (.str "11111111-1111-1111-1111-111111111111") [("id", .str "")]
          (.error networkError) "2024-02-01T00:00:00Z").state.mockOrganizations := by
  refine ⟨⟨[("id", .str ""), ("name", .str "ООО \"Ромашка\""),
      ("createdAt", .str "2024-01-01T10:00:00Z"), ("updatedAt", .str "2024-02-01T00:00:00Z")],
      by decide, by decide⟩, by decide, by decide⟩

/-- C6 (amended): for every payload whose id is truthy (present and not
empty) and equals the id of an entry currently in the mock list,
`createOrganization` under remote failure fails with DuplicateId and leaves
the mock list exactly as it was. -/
theorem createOrganization_duplicate_id (D : Int) (s : State) (organization : Obj)
    (uuid tCreated tUpdated : String) (error : RemoteError)
    (htruthy : (objGet organization "id").truthy = true)
    (hdup : ∃ o ∈ s.mockOrganizations, objGet o "id" = objGet organization "id") :
    (createOrganization D s organization uuid tCreated tUpdated (.error error)).result
      = .error .duplicateId ∧
    (createOrganization D s organization uuid tCreated tUpdated (.error error)).state.mockOrganizations
      = s.mockOrganizations := by
  have hid := objGet_newOrg_id organization uuid tCreated tUpdated
  rw [if_pos htruthy] at hid
  have hany : s.mockOrganizations.any
      (fun o => objGet o "id" == objGet (newOrg organization uuid tCreated tUpdated) "id")
        = true := by
    rw [hid, List.any_eq_true]
    obtain ⟨o, ho, heq⟩ := hdup
    exact ⟨o, ho, by simp [heq]⟩
  simp [createOrganization, hany]

/-- Witness for C6 (amended): creating an organization under the id of the
first static mock entry. -/
theorem createOrganization_duplicate_id_witness :
    (createOrganization 30000 (initialState 30000)
        [("id", .str "11111111-1111-1111-1111-111111111111"), ("name", .str "Копия")] "u-1"
        "2024-02-02T00:00:00Z" "2024-02-02T00:00:00Z" (.error networkError)).result
      = .error .duplicateId :=
  (createOrganization_duplicate_id 30000 (initialState 30000)
    [("id", .str "11111111-1111-1111-1111-111111111111"), ("name", .str "Копия")] "u-1"
    "2024-02-02T00:00:00Z" "2024-02-02T00:00:00Z" networkError (by decide)
    ⟨[("id", .str "11111111-1111-1111-1111-111111111111"), ("name", .str "ООО \"Ромашка\""),
      ("createdAt", .str "2024-01-01T10:00:00Z"), ("updatedAt", .str "2024-01-01T10:00:00Z")],
      by decide, by decide⟩).1

theorem find_append_fresh (l : List Obj) (a : Obj) (id : Prim)
    (hl : ∀ o ∈ l, objGet o "id" ≠ id) (ha : objGet a "id" = id) :
    (l ++ [a]).find? (hasId id) = some a := by
  induction l with
  | nil => simp [List.find?, hasId, ha]
  | cons x t ih =>
    have hx : hasId id x = false := by
      simpa [hasId] using hl x (List.mem_cons_self x t)
    rw [List.cons_append, List.find?_cons, hx]
    exact ih (fun o ho => hl o (List.mem_cons_of_mem x ho))

/-- C7: with every request failing, when the id the new record gets (the
payload id if truthy, the generated one otherwise) is the id of no mock
entry, `createOrganization` returns the new record with that id, and a
following `getOrganizationById` for that id returns the very same record,
whatever the cache held before the create. -/
theorem createOrganization_then_getOrganizationById (D : Int) (s : State)
    (organization : Obj) (uuid tCreated tUpdated : String) (error1 : RemoteError)
    (tCheck : Int) (error2 : RemoteError) (tStatus : Int)
    (hfresh : ∀ o ∈ s.mockOrganizations, objGet o "id" ≠
      (if (objGet organization "id").truthy then objGet organization "id" else .str uuid)) :
    (createOrganization D s organization uuid tCreated tUpdated (.error error1)).result
      = .ok (.record (newOrg organization uuid tCreated tUpdated)) ∧
    objGet (newOrg organization uuid tCreated tUpdated) "id"
      = (if (objGet organization "id").truthy then objGet organization "id" else .str uuid) ∧
    (getOrganizationById
        (createOrganization D s organization uuid tCreated tUpdated (.error error1)).state
        (objGet (newOrg organization uuid tCreated tUpdated) "id")
        tCheck (.error error2) tStatus).result
      = .ok (.record (newOrg organization uuid tCreated tUpdated)) := by
  have hid := objGet_newOrg_id organization uuid tCreated tUpdated
  have hany : s.mockOrganizations.any
      (fun o => objGet o "id" == objGet (newOrg organization uuid tCreated tUpdated) "id")
        = false := by
    rw [hid, List.any_eq_false]
    intro o ho
    simpa using hfresh o ho
  have hcreate : createOrganization D s organization uuid tCreated tUpdated (.error error1)
      = { result := .ok (.record (newOrg organization uuid tCreated tUpdated))
          state := clearCache D
            { s with
              serverStatus := { s.serverStatus with available := false }
              mockOrganizations :=
                s.mockOrganizations ++ [newOrg organization uuid tCreated tUpdated] }
            (some "organizations")
          calls := 1 } := by
    simp [createOrganization, hany]
  refine ⟨by rw [hcreate], hid, ?_⟩
  rw [hcreate]
  have hfind : (s.mockOrganizations ++ [newOrg organization uuid tCreated tUpdated]).find?
      (hasId (objGet (newOrg organization uuid tCreated tUpdated) "id"))
        = some (newOrg organization uuid tCreated tUpdated) :=
    find_append_fresh _ _ _ (by rw [hid]; exact hfresh) rfl
  simp [getOrganizationById, isCacheValid_clearCache, getOrganizationByIdRemote, hfind]

/-- Witness for C7: a payload without id gets the generated id and is found
again under it. -/
theorem createOrganization_then_getOrganizationById_witness :
    (getOrganizationById
        (createOrganization 30000 (initialState 30000) [("name", .str "Новая")] "u-1"
          "2024-02-01T00:00:00Z" "2024-02-01T00:00:01Z" (.error networkError)).state
        (objGet (newOrg [("name", .str "Новая")] "u-1"
          "2024-02-01T00:00:00Z" "2024-02-01T00:00:01Z") "id")
        5000 (.error networkError) 5001).result
      = .ok (.record (newOrg [("name", .str "Новая")] "u-1"
          "2024-02-01T00:00:00Z" "2024-02-01T00:00:01Z")) :=
  (createOrganization_then_getOrganizationById 30000 (initialState 30000)
    [("name", .str "Новая")] "u-1" "2024-02-01T00:00:00Z" "2024-02-01T00:00:01Z" networkError
    5000 networkError 5001 (by decide)).2.2

/-! ## Cache invalidation by the write operations -/

theorem getOrganizations_calls_of_invalid (D : Int) (s : State) (now : Int)
    (remote : Except RemoteError Payload) (tStatus tCache : Int)
    (h : isCacheValid s "organizations" now = false) :
    (getOrganizations D s false now remote tStatus tCache).calls = 1 := by
  cases remote with
  | ok data => simp [getOrganizations, h]
  | error e =>
    by_cases he : (e.name == "AbortError") = true
    · simp [getOrganizations, h, he]
    · simp [getOrganizations, h, he]

theorem createOrganization_ok_state (D : Int) (s : State) (organization : Obj)
    (uuid tCreated tUpdated : String) (remote : Except RemoteError Payload) (v : Payload)
    (h : (createOrganization D s organization uuid tCreated tUpdated remote).result = .ok v) :
    ∃ s2, (createOrganization D s organization uuid tCreated tUpdated remote).state
      = clearCache D s2 (some "organizations") := by
  cases remote with
  | ok data => exact ⟨_, rfl⟩
  | error e =>
    by_cases hany : s.mockOrganizations.any
        (fun o => objGet o "id" == objGet (newOrg organization uuid tCreated tUpdated) "id") = true
    · simp [createOrganization, hany] at h
    · refine ⟨{ s with
          serverStatus := { s.serverStatus with available := false }
          mockOrganizations :=
            s.mockOrganizations ++ [newOrg organization uuid tCreated tUpdated] }, ?_⟩
      simp [createOrganization, hany]

theorem updateOrganization_ok_state (D : Int) (s : State) (id : Prim) (updatedData : Obj)
    (remote : Except RemoteError Payload) (tUpdated : String) (v : Payload)
    (h : (updateOrganization D s id updatedData remote tUpdated).result = .ok v) :
    ∃ s2, (updateOrganization D s id updatedData remote tUpdated).state
      = clearCache D s2 (some "organizations") := by
  cases remote with
  | ok data => exact ⟨_, rfl⟩
  | error e =>
    cases hidx : s.mockOrganizations.findIdx? (hasId id) with
    | none => simp [updateOrganization, hidx] at h
    | some index =>
      refine ⟨{ s with
          serverStatus := { s.serverStatus with available := false }
          mockOrganizations := s.mockOrganizations.set index
            (mergedOrg (s.mockOrganizations.getD index []) updatedData tUpdated) }, ?_⟩
      simp [updateOrganization, hidx]

theorem deleteOrganization_ok_state (D : Int) (s : State) (id : Prim)
    (remote : Except RemoteError Payload) (tDeleted : String) (v : Payload)
    (h : (deleteOrganization D s id remote tDeleted).result = .ok v) :
    ∃ s2, (deleteOrganization D s id remote tDeleted).state
      = clearCache D s2 (some "organizations") := by
  cases remote with
  | ok data => exact ⟨_, rfl⟩
  | error e =>
    cases hidx : s.mockOrganizations.findIdx? (hasId id) with
    | none => simp [deleteOrganization, hidx] at h
    | some index =>
      refine ⟨{ s with
          serverStatus := { s.serverStatus with available := false }
          mockOrganizations := s.mockOrganizations.eraseIdx index }, ?_⟩
      simp [deleteOrganization, hidx]

/-- C8: after `createOrganization`, `updateOrganization` or
`deleteOrganization` has returned without error (remote success or fallback
alike), and after `clearOrganizationsCache`, the organizations cache entry is
not valid at any clock value, and the next `getOrganizations` call without
`forceRefresh` sends a request. -/
theorem write_invalidates_cache (D : Int) (s : State) (c : WriteCall) (v : Payload)
    (hok : (performWrite D s c).result = .ok v)
    (now : Int) (remote : Except RemoteError Payload) (tStatus tCache : Int) :
    isCacheValid (performWrite D s c).state "organizations" now = false ∧
    (getOrganizations D (performWrite D s c).state false now remote tStatus tCache).calls
      = 1 := by
  have hstate : ∃ s2, (performWrite D s c).state = clearCache D s2 (some "organizations") := by
    cases c with
    | create organization uuid tCreated tUpdated r =>
      exact createOrganization_ok_state D s organization uuid tCreated tUpdated r v hok
    | update id updatedData r tUpdated =>
      exact updateOrganization_ok_state D s id updatedData r tUpdated v hok
    | delete id r tDeleted =>
      exact deleteOrganization_ok_state D s id r tDeleted v hok
    | clearOrganizationsCache => exact ⟨s, rfl⟩
  obtain ⟨s2, hs2⟩ := hstate
  have hinv : isCacheValid (performWrite D s c).state "organizations" now = false := by
    rw [hs2]
    exact isCacheValid_clearCache D s2 now
  exact ⟨hinv, getOrganizations_calls_of_invalid D _ now remote tStatus tCache hinv⟩

/-- Witness for C8: a fallback delete on a state whose cache holds a fresh
server list. -/
theorem write_invalidates_cache_witness :
    isCacheValid
        (performWrite 30000
          (setCache 30000 (initialState 30000) "organizations" (.value (.list [])) 1000)
          (.delete (.str "33333333-3333-3333-3333-333333333333") (.error networkError)
            "2024-02-01T00:00:00Z")).state
        "organizations" 1001 = false ∧
    (getOrganizations 30000
        (performWrite 30000
          (setCache 30000 (initialState 30000) "organizations" (.value (.list [])) 1000)
          (.delete (.str "33333333-3333-3333-3333-333333333333") (.error networkError)
            "2024-02-01T00:00:00Z")).state
        false 1001 (.ok (.list [])) 1002 1003).calls = 1 :=
  write_invalidates_cache 30000
    (setCache 30000 (initialState 30000) "organizations" (.value (.list [])) 1000)
    (.delete (.str "33333333-3333-3333-3333-333333333333") (.error networkError)
      "2024-02-01T00:00:00Z")
    (.record [("success", .bool true), ("id", .str "33333333-3333-3333-3333-333333333333"),
      ("deletedAt", .str "2024-02-01T00:00:00Z")])
    (by decide) 1001 (.ok (.list [])) 1002 1003

/-! ## Identity of organizations in the fallback store -/

/-- C9 (the code at the failing input): a fallback `updateOrganization`
whose patch carries the id of another entry leaves two mock entries with the
same id. -/
theorem updateOrganization_duplicates_id :
    ((updateOrganization 30000 (initialState 30000)
        (.str "11111111-1111-1111-1111-111111111111")
        [("id", .str "22222222-2222-2222-2222-222222222222")]
        (.error networkError) "2024-02-01T00:00:00Z").state.mockOrganizations.map
        (fun o => objGet o "id"))
      = [.str "22222222-2222-2222-2222-222222222222",
         .str "22222222-2222-2222-2222-222222222222",
         .str "33333333-3333-3333-3333-333333333333",
         .str "44444444-4444-4444-4444-444444444444",
         .str "55555555-5555-5555-5555-555555555555"] ∧
    ¬ ((updateOrganization 30000 (initialState 30000)
        (.str "11111111-1111-1111-1111-111111111111")
        [("id", .str "22222222-2222-2222-2222-222222222222")]
        (.error networkError) "2024-02-01T00:00:00Z").state.mockOrganizations.map
        (fun o => objGet o "id")).Nodup := by
  refine ⟨by decide, by decide⟩

/-! ## getOrganizationById -/

theorem find_first (pre post : List Obj) (o : Obj) (id : Prim)
    (hpre : ∀ x ∈ pre, objGet x "id" ≠ id) (ho : objGet o "id" = id) :
    (pre ++ o :: post).find? (hasId id) = some o := by
  induction pre with
  | nil => simp [List.find?, hasId, ho]
  | cons x t ih =>
    have hx : hasId id x = false := by
      simpa [hasId] using hpre x (List.mem_cons_self x t)
    rw [List.cons_append, List.find?_cons, hx]
    exact ih (fun y hy => hpre y (List.mem_cons_of_mem x hy))

theorem find_absent (l : List Obj) (id : Prim) (hl : ∀ x ∈ l, objGet x "id" ≠ id) :
    l.find? (hasId id) = none := by
  rw [List.find?_eq_none]
  intro x hx
  simpa [hasId] using hl x hx

theorem getOrganizationById_miss (s : State) (id : Prim) (tCheck : Int)
    (remote : Except RemoteError Payload) (tStatus : Int)
    (hmiss : isCacheValid s "organizations" tCheck = false ∨
      ∃ xs, readCacheData s "organizations" = .ok (.list xs) ∧ ∀ o ∈ xs, objGet o "id" ≠ id) :
    getOrganizationById s id tCheck remote tStatus
      = getOrganizationByIdRemote s id remote tStatus := by
  by_cases hv : isCacheValid s "organizations" tCheck = true
  · rcases hmiss with h | ⟨xs, hxs, hno⟩
    · rw [h] at hv
      exact absurd hv (by decide)
    · simp [getOrganizationById, hv, hxs, find_absent xs id hno]
  · simp [getOrganizationById, hv]

/-- C10: for every id, (1) when the organizations cache is not valid, or
holds a list with no entry of that id, and the request fails,
`getOrganizationById` returns the first mock entry with that id, and (2)
fails with NotFound when no mock entry has it; (3) when the cache is valid
and holds a list with an entry of that id, it returns the first such cached
entry, sends no request and leaves the module state untouched. -/
theorem getOrganizationById_lookup (s : State) (id : Prim) (tCheck : Int)
    (error : RemoteError) (tStatus : Int) :
    (∀ pre o post,
      (isCacheValid s "organizations" tCheck = false ∨
        ∃ xs, readCacheData s "organizations" = .ok (.list xs) ∧ ∀ x ∈ xs, objGet x "id" ≠ id) →
      s.mockOrganizations = pre ++ o :: post →
      (∀ x ∈ pre, objGet x "id" ≠ id) → objGet o "id" = id →
      (getOrganizationById s id tCheck (.error error) tStatus).result = .ok (.record o)) ∧
    ((isCacheValid s "organizations" tCheck = false ∨
        ∃ xs, readCacheData s "organizations" = .ok (.list xs) ∧ ∀ x ∈ xs, objGet x "id" ≠ id) →
      (∀ x ∈ s.mockOrganizations, objGet x "id" ≠ id) →
      (getOrganizationById s id tCheck (.error error) tStatus).result
        = .error (.notFoundById id)) ∧
    (∀ remote pre org post,
      isCacheValid s "organizations" tCheck = true →
      readCacheData s "organizations" = .ok (.list (pre ++ org :: post)) →
      (∀ x ∈ pre, objGet x "id" ≠ id) → objGet org "id" = id →
      (getOrganizationById s id tCheck remote tStatus).result = .ok (.record org) ∧
      (getOrganizationById s id tCheck remote tStatus).calls = 0 ∧
      (getOrganizationById s id tCheck remote tStatus).state = s) := by
  refine ⟨?_, ?_, ?_⟩
  · intro pre o post hmiss hsplit hpre ho
    rw [getOrganizationById_miss s id tCheck _ tStatus hmiss]
    have hfind : s.mockOrganizations.find? (hasId id) = some o := by
      rw [hsplit]
      exact find_first pre post o id hpre ho
    simp [getOrganizationByIdRemote, hfind]
  · intro hmiss hnone
    rw [getOrganizationById_miss s id tCheck _ tStatus hmiss]
    simp [getOrganizationByIdRemote, find_absent _ id hnone]
  · intro remote pre org post hv hdata hpre horg
    have hfind : (pre ++ org :: post).find? (hasId id) = some org :=
      find_first pre post org id hpre horg
    simp [getOrganizationById, hv, hdata, hfind]

/-- Witness for C10: in the initial state (cache empty) with the server
unreachable, the third static organization is found in the mock list; an id
unknown to the mock list gives NotFound; and with a fresh cached server list
the cached entry is returned. -/
theorem getOrganizationById_lookup_witness :
    (getOrganizationById (initialState 30000) (.str "33333333-3333-3333-3333-333333333333")
        1000 (.error networkError) 1001).result
      = .ok (.record [("id", .str "33333333-3333-3333-3333-333333333333"),
          ("name", .str "ООО \"Альянс\""), ("createdAt", .str "2024-01-03T09:15:00Z"),
          ("updatedAt", .str "2024-01-03T09:15:00Z")]) ∧
    (getOrganizationById (initialState 30000) (.str "no-such-id")
        1000 (.error networkError) 1001).result
      = .error (.notFoundById (.str "no-such-id")) ∧
    (getOrganizationById
        (setCache 30000 (initialState 30000) "organizations"
          (.value (.list [[("id", .str "a"), ("name", .str "A")],
            [("id", .str "b"), ("name", .str "B")]])) 1000)
        (.str "b") 2000 (.error networkError) 2001).calls = 0 :=
  ⟨(getOrganizationById_lookup (initialState 30000)
      (.str "33333333-3333-3333-3333-333333333333") 1000 networkError 1001).1
      (mockOrganizations.take 2) _ (mockOrganizations.drop 3)
      (Or.inl (by decide)) (by decide) (by decide) (by decide),
   (getOrganizationById_lookup (initialState 30000) (.str "no-such-id")
      1000 networkError 1001).2.1 (Or.inl (by decide)) (by decide),
   ((getOrganizationById_lookup
      (setCache 30000 (initialState 30000) "organizations"
        (.value (.list [[("id", .str "a"), ("name", .str "A")],
          [("id", .str "b"), ("name", .str "B")]])) 1000)
      (.str "b") 2000 networkError 2001).2.2 (.error networkError)
      [[("id", .str "a"), ("name", .str "A")]] [("id", .str "b"), ("name", .str "B")] []
      (by decide) (by decide) (by decide) (by decide)).2.1⟩

/-! ## Records: spread and merge -/

theorem lookup_none_of_not_mem_keys (o : Obj) (k : String) (h : k ∉ o.map Prod.fst) :
    List.lookup k o = none := by
  induction o with
  | nil => rfl
  | cons p t ih =>
    obtain ⟨a, b⟩ := p
    rw [List.map_cons, List.mem_cons, not_or] at h
    have hne : (k == a) = false := by simpa using h.1
    rw [List.lookup_cons, hne]
    exact ih h.2

theorem lookup_objSpread (base extra : Obj) (k : String) (h : keysDistinct extra) :
    List.lookup k (objSpread base extra)
      = match List.lookup k extra with
        | some v => some v
        | none => List.lookup k base := by
  induction extra generalizing base with
  | nil => rfl
  | cons p t ih =>
    obtain ⟨a, b⟩ := p
    have hnd : a ∉ t.map Prod.fst ∧ keysDistinct t := by
      simpa [keysDistinct] using h
    have hstep : objSpread base ((a, b) :: t) = objSpread (objSet base a b) t := rfl
    rw [hstep, ih (objSet base a b) hnd.2]
    by_cases hk : k = a
    · subst hk
      rw [lookup_none_of_not_mem_keys t k hnd.1, List.lookup_cons_self]
      exact lookup_propAssign_self base k b
    · have hne : (k == a) = false := by simpa using hk
      rw [List.lookup_cons, hne]
      cases List.lookup k t with
      | some v => rfl
      | none => exact lookup_propAssign_ne base a k b hk

theorem lookup_objSpread_nil (o : Obj) (k : String) (h : keysDistinct o) :
    List.lookup k (objSpread [] o) = List.lookup k o := by
  rw [lookup_objSpread [] o k h]
  cases List.lookup k o <;> rfl

theorem lookup_mergedOrg_updatedAt (old updatedData : Obj) (tUpdated : String) :
    List.lookup "updatedAt" (mergedOrg old updatedData tUpdated) = some (.str tUpdated) :=
  lookup_propAssign_self _ _ _

theorem lookup_mergedOrg_of_patch (old updatedData : Obj) (tUpdated : String) (k : String)
    (v : Prim) (hpatch : keysDistinct updatedData) (hk : k ≠ "updatedAt")
    (hv : List.lookup k updatedData = some v) :
    List.lookup k (mergedOrg old updatedData tUpdated) = some v := by
  unfold mergedOrg objSet
  rw [lookup_propAssign_ne _ _ _ _ hk, lookup_objSpread _ _ _ hpatch, hv]

theorem lookup_mergedOrg_of_old (old updatedData : Obj) (tUpdated : String) (k : String)
    (hold : keysDistinct old) (hpatch : keysDistinct updatedData) (hk : k ≠ "updatedAt")
    (hv : List.lookup k updatedData = none) :
    List.lookup k (mergedOrg old updatedData tUpdated) = List.lookup k old := by
  unfold mergedOrg objSet
  rw [lookup_propAssign_ne _ _ _ _ hk, lookup_objSpread _ _ _ hpatch, hv]
  exact lookup_objSpread_nil old k hold

/-! ## Positions in the mock list -/

theorem findIdx_first (pre post : List Obj) (o : Obj) (id : Prim)
    (hpre : ∀ x ∈ pre, objGet x "id" ≠ id) (ho : objGet o "id" = id) :
    (pre ++ o :: post).findIdx? (hasId id) = some pre.length := by
  induction pre with
  | nil => simp [List.findIdx?_cons, hasId, ho]
  | cons x t ih =>
    have hx : hasId id x = false := by
      simpa [hasId] using hpre x (List.mem_cons_self x t)
    have iht := ih (fun y hy => hpre y (List.mem_cons_of_mem x hy))
    rw [List.cons_append, List.findIdx?_cons, hx]
    simp [List.findIdx?_succ, iht]

theorem findIdx_absent (l : List Obj) (id : Prim) (hl : ∀ x ∈ l, objGet x "id" ≠ id) :
    l.findIdx? (hasId id) = none := by
  rw [List.findIdx?_eq_none_iff]
  intro x hx
  simpa [hasId] using hl x hx

theorem set_at_split (pre post : List Obj) (o m : Obj) :
    (pre ++ o :: post).set pre.length m = pre ++ m :: post := by
  induction pre with
  | nil => rfl
  | cons x t ih => simp [List.set, ih]

theorem getD_at_split (pre post : List Obj) (o : Obj) :
    (pre ++ o :: post).getD pre.length [] = o := by
  induction pre with
  | nil => rfl
  | cons x t ih => simpa using ih

theorem eraseIdx_at_split (pre post : List Obj) (o : Obj) :
    (pre ++ o :: post).eraseIdx pre.length = pre ++ post := by
  induction pre with
  | nil => rfl
  | cons x t ih => simp [List.eraseIdx, ih]

/-! ## updateOrganization, deleteOrganization and createOrganization on the fallback path -/

/-- C11: under remote failure, `updateOrganization(id, patch)` (1) fails with
NotFound and leaves the mock list as it was when no mock entry has the id;
(2) otherwise the first entry with that id is replaced, in place, by the
merged record, every other entry and the length of the list stay as they
were, and the merged record is returned. For well-formed records the merged
record has the patch value for every field of the patch and the old value
for every other field, `updatedAt` apart, which is the current time. -/
theorem updateOrganization_fallback (D : Int) (s : State) (id : Prim) (updatedData : Obj)
    (error : RemoteError) (tUpdated : String) :
    ((∀ x ∈ s.mockOrganizations, objGet x "id" ≠ id) →
      (updateOrganization D s id updatedData (.error error) tUpdated).result
        = .error .notFound ∧
      (updateOrganization D s id updatedData (.error error) tUpdated).state.mockOrganizations
        = s.mockOrganizations) ∧
    (∀ pre old post,
      s.mockOrganizations = pre ++ old :: post →
      (∀ x ∈ pre, objGet x "id" ≠ id) → objGet old "id" = id →
      keysDistinct old → keysDistinct updatedData →
      (updateOrganization D s id updatedData (.error error) tUpdated).result
        = .ok (.record (mergedOrg old updatedData tUpdated)) ∧
      (updateOrganization D s id updatedData (.error error) tUpdated).state.mockOrganizations
        = pre ++ mergedOrg old updatedData tUpdated :: post ∧
      (∀ k v, k ≠ "updatedAt" → List.lookup k updatedData = some v →
        List.lookup k (mergedOrg old updatedData tUpdated) = some v) ∧
      (∀ k, k ≠ "updatedAt" → List.lookup k updatedData = none →
        List.lookup k (mergedOrg old updatedData tUpdated) = List.lookup k old) ∧
      List.lookup "updatedAt" (mergedOrg old updatedData tUpdated) = some (.str tUpdated)) := by
  refine ⟨?_, ?_⟩
  · intro habsent
    have hidx := findIdx_absent s.mockOrganizations id habsent
    simp [updateOrganization, hidx]
  · intro pre old post hsplit hpre hold hwfOld hwfPatch
    have hidx : s.mockOrganizations.findIdx? (hasId id) = some pre.length := by
      rw [hsplit]
      exact findIdx_first pre post old id hpre hold
    have hget : s.mockOrganizations.getD pre.length [] = old := by
      rw [hsplit]
      exact getD_at_split pre post old
    have hset : s.mockOrganizations.set pre.length (mergedOrg old updatedData tUpdated)
        = pre ++ mergedOrg old updatedData tUpdated :: post := by
      rw [hsplit]
      exact set_at_split pre post old _
    refine ⟨?_, ?_, ?_, ?_, ?_⟩
    · simp only [updateOrganization, hidx, hget]
    · simp only [updateOrganization, hidx, hget, clearCache_mockOrganizations, hset]
    · intro k v hk hv
      exact lookup_mergedOrg_of_patch old updatedData tUpdated k v hwfPatch hk hv
    · intro k hk hv
      exact lookup_mergedOrg_of_old old updatedData tUpdated k hwfOld hwfPatch hk hv
    · exact lookup_mergedOrg_updatedAt old updatedData tUpdated

/-- Witness for C11: an unknown id gives NotFound; renaming the second static
organization keeps its id and creation time and replaces it in place. -/
theorem updateOrganization_fallback_witness :
    (updateOrganization 30000 (initialState 30000) (.str "no-such-id")
        [("name", .str "Новое имя")] (.error networkError) "2024-02-01T00:00:00Z").result
      = .error .notFound ∧
    (updateOrganization 30000 (initialState 30000)
        (.str "22222222-2222-2222-2222-222222222222")
        [("name", .str "Новое имя")] (.error networkError)
        "2024-02-01T00:00:00Z").state.mockOrganizations
      = mockOrganizations.take 1
        ++ [("id", .str "22222222-2222-2222-2222-222222222222"), ("name", .str "Новое имя"),
            ("createdAt", .str "2024-01-02T11:30:00Z"),
            ("updatedAt", .str "2024-02-01T00:00:00Z")]
        :: mockOrganizations.drop 2 :=
  ⟨((updateOrganization_fallback 30000 (initialState 30000) (.str "no-such-id")
      [("name", .str "Новое имя")] networkError "2024-02-01T00:00:00Z").1 (by decide)).1,
   ((updateOrganization_fallback 30000 (initialState 30000)
      (.str "22222222-2222-2222-2222-222222222222")
      [("name", .str "Новое имя")] networkError "2024-02-01T00:00:00Z").2
      (mockOrganizations.take 1)
      [("id", .str "22222222-2222-2222-2222-222222222222"), ("name", .str "АО \"ТехноПром\""),
       ("createdAt", .str "2024-01-02T11:30:00Z"), ("updatedAt", .str "2024-01-02T11:30:00Z")]
      (mockOrganizations.drop 2)
      (by decide) (by decide) (by decide) (by decide) (by decide)).2.1⟩

/-- C12: under remote failure, `deleteOrganization(id)` (1) fails with
NotFound and leaves the mock list as it was when no mock entry has the id;
(2) otherwise it removes the first entry with that id and nothing else, the
remaining entries keep their order, and it returns
`{ success: true, id, deletedAt }` with the id it was given. -/
theorem deleteOrganization_fallback (D : Int) (s : State) (id : Prim)
    (error : RemoteError) (tDeleted : String) :
    ((∀ x ∈ s.mockOrganizations, objGet x "id" ≠ id) →
      (deleteOrganization D s id (.error error) tDeleted).result = .error .notFound ∧
      (deleteOrganization D s id (.error error) tDeleted).state.mockOrganizations
        = s.mockOrganizations) ∧
    (∀ pre old post,
      s.mockOrganizations = pre ++ old :: post →
      (∀ x ∈ pre, objGet x "id" ≠ id) → objGet old "id" = id →
      (deleteOrganization D s id (.error error) tDeleted).result
        = .ok (.record [("success", .bool true), ("id", id), ("deletedAt", .str tDeleted)]) ∧
      (deleteOrganization D s id (.error error) tDeleted).state.mockOrganizations
        = pre ++ post) := by
  refine ⟨?_, ?_⟩
  · intro habsent
    have hidx := findIdx_absent s.mockOrganizations id habsent
    simp [deleteOrganization, hidx]
  · intro pre old post hsplit hpre hold
    have hidx : s.mockOrganizations.findIdx? (hasId id) = some pre.length := by
      rw [hsplit]
      exact findIdx_first pre post old id hpre hold
    have herase : s.mockOrganizations.eraseIdx pre.length = pre ++ post := by
      rw [hsplit]
      exact eraseIdx_at_split pre post old
    refine ⟨?_, ?_⟩
    · simp only [deleteOrganization, hidx]
    · simp only [deleteOrganization, hidx, clearCache_mockOrganizations, herase]

/-- Witness for C12: an unknown id gives NotFound; deleting the fourth static
organization leaves the other four in order. -/
theorem deleteOrganization_fallback_witness :
    (deleteOrganization 30000 (initialState 30000) (.str "no-such-id")
        (.error networkError) "2024-02-01T00:00:00Z").result = .error .notFound ∧
    (deleteOrganization 30000 (initialState 30000)
        (.str "44444444-4444-4444-4444-444444444444")
        (.error networkError) "2024-02-01T00:00:00Z").state.mockOrganizations
      = mockOrganizations.take 3 ++ mockOrganizations.drop 4 :=
  ⟨((deleteOrganization_fallback 30000 (initialState 30000) (.str "no-such-id")
      networkError "2024-02-01T00:00:00Z").1 (by decide)).1,
   ((deleteOrganization_fallback 30000 (initialState 30000)
      (.str "44444444-4444-4444-4444-444444444444") networkError "2024-02-01T00:00:00Z").2
      (mockOrganizations.take 3)
      [("id", .str "44444444-4444-4444-4444-444444444444"), ("name", .str "ИП Иванов"),
       ("createdAt", .str "2024-01-04T14:20:00Z"), ("updatedAt", .str "2024-01-04T14:20:00Z")]
      (mockOrganizations.drop 4)
      (by decide) (by decide) (by decide)).2⟩

theorem lookup_newOrg_createdAt (organization : Obj) (uuid tCreated tUpdated : String) :
    List.lookup "createdAt" (newOrg organization uuid tCreated tUpdated)
      = some (.str tCreated) := by
  unfold newOrg objSet
  rw [lookup_propAssign_ne _ _ _ _ (by decide)]
  exact lookup_propAssign_self _ _ _

theorem lookup_newOrg_updatedAt (organization : Obj) (uuid tCreated tUpdated : String) :
    List.lookup "updatedAt" (newOrg organization uuid tCreated tUpdated)
      = some (.str tUpdated) :=
  lookup_propAssign_self _ _ _

theorem lookup_newOrg_other (organization : Obj) (uuid tCreated tUpdated : String) (k : String)
    (hwf : keysDistinct organization)
    (hid : k ≠ "id") (hc : k ≠ "createdAt") (hu : k ≠ "updatedAt") :
    List.lookup k (newOrg organization uuid tCreated tUpdated) = List.lookup k organization := by
  unfold newOrg objSet
  rw [lookup_propAssign_ne _ _ _ _ hu, lookup_propAssign_ne _ _ _ _ hc,
    lookup_propAssign_ne _ _ _ _ hid]
  exact lookup_objSpread_nil organization k hwf

/-- Counterexample for C13: the payload carries the id `''`, which no mock
entry has; the record `createOrganization` returns under remote failure does
not have the caller-supplied id but the generated one. -/
theorem createOrganization_empty_id_replaced :
    (∀ o ∈ (initialState 30000).mockOrganizations,
      objGet o "id" ≠ objGet [("id", .str ""), ("name", .str "Новая")] "id") ∧
    (createOrganization 30000 (initialState 30000) [("id", .str ""), ("name", .str "Новая")]
        "u-1" "2024-02-01T00:00:00Z" "2024-02-01T00:00:00Z" (.error networkError)).result
      = .ok (.record [("id", .str "u-1"), ("name", .str "Новая"),
          ("createdAt", .str "2024-02-01T00:00:00Z"),
          ("updatedAt", .str "2024-02-01T00:00:00Z")]) ∧
    objGet [("id", .str "u-1"), ("name", .str "Новая"),
          ("createdAt", .str "2024-02-01T00:00:00Z"),
          ("updatedAt", .str "2024-02-01T00:00:00Z")] "id"
      ≠ objGet [("id", .str ""), ("name", .str "Новая")] "id" := by
  refine ⟨by decide, by decide, by decide⟩

/-- C13 (amended): under remote failure, when the id the record gets (the
caller-supplied id if it is truthy, the generated id otherwise) is the id of
no mock entry, `createOrganization` returns the record with that id, with
the payload value for every other payload field, and with `createdAt` and
`updatedAt` set to the current time; the mock list afterwards is the mock
list before with exactly that record appended at the end. -/
theorem createOrganization_fallback_appends (D : Int) (s : State) (organization : Obj)
    (uuid tCreated tUpdated : String) (error : RemoteError)
    (hwf : keysDistinct organization)
    (hfresh : ∀ o ∈ s.mockOrganizations, objGet o "id" ≠
      (if (objGet organization "id").truthy then objGet organization "id" else .str uuid)) :
    (createOrganization D s organization uuid tCreated tUpdated (.error error)).result
      = .ok (.record (newOrg organization uuid tCreated tUpdated)) ∧
    objGet (newOrg organization uuid tCreated tUpdated) "id"
      = (if (objGet organization "id").truthy then objGet organization "id" else .str uuid) ∧
    (∀ k, k ≠ "id" → k ≠ "createdAt" → k ≠ "updatedAt" →
      List.lookup k (newOrg organization uuid tCreated tUpdated)
        = List.lookup k organization) ∧
    List.lookup "createdAt" (newOrg organization uuid tCreated tUpdated)
      = some (.str tCreated) ∧
    List.lookup "updatedAt" (newOrg organization uuid tCreated tUpdated)
      = some (.str tUpdated) ∧
    (createOrganization D s organization uuid tCreated tUpdated (.error error)).state.mockOrganizations
      = s.mockOrganizations ++ [newOrg organization uuid tCreated tUpdated] := by
  have hid := objGet_newOrg_id organization uuid tCreated tUpdated
  have hany : s.mockOrganizations.any
      (fun o => objGet o "id" == objGet (newOrg organization uuid tCreated tUpdated) "id")
        = false := by
    rw [hid, List.any_eq_false]
    intro o ho
    simpa using hfresh o ho
  refine ⟨?_, hid, ?_, ?_, ?_, ?_⟩
  · simp [createOrganization, hany]
  · intro k hk hc hu
    exact lookup_newOrg_other organization uuid tCreated tUpdated k hwf hk hc hu
  · exact lookup_newOrg_createdAt organization uuid tCreated tUpdated
  · exact lookup_newOrg_updatedAt organization uuid tCreated tUpdated
  · simp [createOrganization, hany]

/-- Witness for C13 (amended): a payload with an id of its own and an extra
field. -/
theorem createOrganization_fallback_appends_witness :
    (createOrganization 30000 (initialState 30000)
        [("id", .str "66666666-6666-6666-6666-666666666666"), ("name", .str "Новая"),
         ("inn", .str "7701234567")]
        "u-1" "2024-02-01T00:00:00Z" "2024-02-01T00:00:01Z"
        (.error networkError)).state.mockOrganizations
      = mockOrganizations
        ++ [newOrg [("id", .str "66666666-6666-6666-6666-666666666666"),
              ("name", .str "Новая"), ("inn", .str "7701234567")]
            "u-1" "2024-02-01T00:00:00Z" "2024-02-01T00:00:01Z"] :=
  (createOrganization_fallback_appends 30000 (initialState 30000)
    [("id", .str "66666666-6666-6666-6666-666666666666"), ("name", .str "Новая"),
     ("inn", .str "7701234567")]
    "u-1" "2024-02-01T00:00:00Z" "2024-02-01T00:00:01Z" networkError
    (by decide) (by decide)).2.2.2.2.2

/-! ## calculateReport: validation and shape of the fallback report -/

/-- C14: `calculateReport` fails before any request in exactly two cases:
with MissingPeriod when `startDate` or `endDate` is missing, and with
InvalidRange when both are present and `endDate` is strictly before
`startDate`; in both cases no request is sent and the module state is
unchanged. In every other case (equal dates included) it sends one request
and returns a value. -/
theorem calculateReport_validation (s : State) (startDate endDate : DateInput)
    (organizationId : Prim) (remote : Except RemoteError Payload) (draw : Nat → ℚ)
    (clock : Nat → Int) (tGenerated : String) :
    ((startDate.truthy = false ∨ endDate.truthy = false) →
      (calculateReport s startDate endDate organizationId remote draw clock tGenerated).result
        = .error .missingPeriod ∧
      (calculateReport s startDate endDate organizationId remote draw clock tGenerated).calls = 0 ∧
      (calculateReport s startDate endDate organizationId remote draw clock tGenerated).state = s) ∧
    (startDate.truthy = true → endDate.truthy = true → isBefore endDate startDate = true →
      (calculateReport s startDate endDate organizationId remote draw clock tGenerated).result
        = .error .invalidRange ∧
      (calculateReport s startDate endDate organizationId remote draw clock tGenerated).calls = 0 ∧
      (calculateReport s startDate endDate organizationId remote draw clock tGenerated).state = s) ∧
    (startDate.truthy = true → endDate.truthy = true → isBefore endDate startDate = false →
      (calculateReport s startDate endDate organizationId remote draw clock tGenerated).calls = 1 ∧
      ∃ v, (calculateReport s startDate endDate organizationId remote draw clock
        tGenerated).result = .ok v) ∧
    (∀ e b : Int, isBefore (.at e) (.at b) = true ↔ e < b) := by
  refine ⟨?_, ?_, ?_, ?_⟩
  · intro h
    have hguard : (!startDate.truthy || !endDate.truthy) = true := by
      rcases h with h | h <;> simp [h]
    simp [calculateReport, hguard]
  · intro hs he hb
    simp [calculateReport, hs, he, hb]
  · intro hs he hb
    cases remote with
    | ok data => simp [calculateReport, hs, he, hb]
    | error e => simp [calculateReport, hs, he, hb]
  · intro e b
    simp [isBefore, dayjsValue]

/-- Witness for C14: a missing end date; an end date one day before the start
date; and equal dates with the server unreachable. -/
theorem calculateReport_validation_witness :
    (calculateReport (initialState 30000) (.at 0) .missing (.str "x")
        (.error networkError) (fun _ => 0) (fun _ => 0) "t").result = .error .missingPeriod ∧
    (calculateReport (initialState 30000) (.at 86400000) (.at 0) (.str "x")
        (.error networkError) (fun _ => 0) (fun _ => 0) "t").result = .error .invalidRange ∧
    (calculateReport (initialState 30000) (.at 86400000) (.at 86400000) (.str "x")
        (.error networkError) (fun _ => 0) (fun _ => 0) "t").calls = 1 :=
  ⟨((calculateReport_validation (initialState 30000) (.at 0) .missing (.str "x")
      (.error networkError) (fun _ => 0) (fun _ => 0) "t").1 (Or.inr rfl)).1,
   ((calculateReport_validation (initialState 30000) (.at 86400000) (.at 0) (.str "x")
      (.error networkError) (fun _ => 0) (fun _ => 0) "t").2.1 rfl rfl (by decide)).1,
   ((calculateReport_validation (initialState 30000) (.at 86400000) (.at 86400000) (.str "x")
      (.error networkError) (fun _ => 0) (fun _ => 0) "t").2.2.1 rfl rfl (by decide)).1⟩

theorem recordCount_bounds (r : ℚ) : 50 ≤ recordCount r ∧ recordCount r ≤ 1000 := by
  unfold recordCount
  constructor
  · exact le_max_left _ _
  · exact max_le (by norm_num) (min_le_left _ _)

theorem length_generateMockReportData (s : State) (startDate endDate : DateInput)
    (organizationId : Prim) (draw : Nat → ℚ) (clock : Nat → Int) :
    (generateMockReportData s startDate endDate organizationId draw clock).length
      = (recordCount (draw 0)).toNat := by
  simp [generateMockReportData]

theorem mem_generateMockReportData (s : State) (startDate endDate : DateInput)
    (organizationId : Prim) (draw : Nat → ℚ) (clock : Nat → Int) (item : ReportRecord) :
    item ∈ generateMockReportData s startDate endDate organizationId draw clock ↔
      ∃ i, i < (recordCount (draw 0)).toNat ∧
        item = withProfit (rawRecord s startDate endDate organizationId draw clock i) := by
  simp only [generateMockReportData, List.mem_map, List.mem_range]
  constructor
  · rintro ⟨raw, ⟨i, hi, rfl⟩, rfl⟩
    exact ⟨i, hi, rfl⟩
  · rintro ⟨i, hi, rfl⟩
    exact ⟨_, ⟨i, hi, rfl⟩, rfl⟩

theorem calculateReport_fallback_result (s : State) (startDate endDate : DateInput)
    (organizationId : Prim) (error : RemoteError) (draw : Nat → ℚ) (clock : Nat → Int)
    (tGenerated : String)
    (hs : startDate.truthy = true) (he : endDate.truthy = true)
    (hb : isBefore endDate startDate = false) :
    (calculateReport s startDate endDate organizationId (.error error) draw clock
        tGenerated).result
      = .ok (.mock (generateMockReportData s startDate endDate organizationId draw clock)
          { organizationId := organizationId
            organizationName :=
              objGet (findOrgOr s organizationId [("name", .str "Тестовая организация")]) "name"
            periodStart := startDate
            periodEnd := endDate
            generatedAt := tGenerated
            totalRecords :=
              (generateMockReportData s startDate endDate organizationId draw clock).length
            totalProfit :=
              (generateMockReportData s startDate endDate organizationId draw clock).foldl
                (fun sum item => sum + item.profit) 0
            averageProfitability :=
              (generateMockReportData s startDate endDate organizationId draw clock).foldl
                (fun sum item => sum + item.profitability) 0
              / (generateMockReportData s startDate endDate organizationId draw clock).length }) := by
  have hguard : (!startDate.truthy || !endDate.truthy) = false := by simp [hs, he]
  unfold calculateReport
  rw [if_neg (by simp [hguard]), if_neg (by simp [hb])]
  rfl

/-- C15: for every period that passes validation, every organization id and
every sequence of random draws, `calculateReport` under remote failure
returns `{ data, meta }` with `meta.totalRecords` equal to the length of
`data`, and that length lies between 50 and 1000 inclusive. -/
theorem calculateReport_fallback_shape (s : State) (startDate endDate : DateInput)
    (organizationId : Prim) (error : RemoteError) (draw : Nat → ℚ) (clock : Nat → Int)
    (tGenerated : String)
    (hs : startDate.truthy = true) (he : endDate.truthy = true)
    (hb : isBefore endDate startDate = false) :
    ∃ data info,
      (calculateReport s startDate endDate organizationId (.error error) draw clock
        tGenerated).result = .ok (.mock data info) ∧
      info.totalRecords = data.length ∧ 50 ≤ data.length ∧ data.length ≤ 1000 := by
  refine ⟨_, _, calculateReport_fallback_result s startDate endDate organizationId error draw
    clock tGenerated hs he hb, rfl, ?_, ?_⟩
  · rw [length_generateMockReportData]
    have h := (recordCount_bounds (draw 0)).1
    omega
  · rw [length_generateMockReportData]
    have h := (recordCount_bounds (draw 0)).2
    omega

/-- Witness for C15: a one-week period, all draws zero, server unreachable. -/
theorem calculateReport_fallback_shape_witness :
    ∃ data info,
      (calculateReport (initialState 30000) (.at 0) (.at 604800000)
        (.str "11111111-1111-1111-1111-111111111111") (.error networkError)
        (fun _ => 0) (fun _ => 0) "2024-02-01T00:00:00Z").result = .ok (.mock data info) ∧
      info.totalRecords = data.length ∧ 50 ≤ data.length ∧ data.length ≤ 1000 :=
  calculateReport_fallback_shape (initialState 30000) (.at 0) (.at 604800000)
    (.str "11111111-1111-1111-1111-111111111111") networkError
    (fun _ => 0) (fun _ => 0) "2024-02-01T00:00:00Z" rfl rfl (by decide)

/-! ## Value ranges of the records of a mock report -/

theorem toFixed2_of_nonneg (x : ℚ) (hx : 0 ≤ x) :
    toFixed2 x = (⌊x * 100 + 1 / 2⌋ : ℚ) / 100 := by
  unfold toFixed2
  rw [if_neg (not_lt.mpr hx)]

theorem toFixed2_bounds (x : ℚ) (lo hi : Int) (hx : 0 ≤ x)
    (hlo : (lo : ℚ) / 100 ≤ x) (hhi : x ≤ (hi : ℚ) / 100) :
    (lo : ℚ) / 100 ≤ toFixed2 x ∧ toFixed2 x ≤ (hi : ℚ) / 100 := by
  rw [toFixed2_of_nonneg x hx]
  have h1 : lo ≤ ⌊x * 100 + 1 / 2⌋ := by
    rw [Int.le_floor]
    linarith
  have h2 : ⌊x * 100 + 1 / 2⌋ ≤ hi := by
    have h3 : ⌊x * 100 + 1 / 2⌋ < hi + 1 := by
      rw [Int.floor_lt]
      push_cast
      linarith
    omega
  have h1q : (lo : ℚ) ≤ (⌊x * 100 + 1 / 2⌋ : ℚ) := by exact_mod_cast h1
  have h2q : (⌊x * 100 + 1 / 2⌋ : ℚ) ≤ (hi : ℚ) := by exact_mod_cast h2
  constructor
  · exact div_le_div_of_nonneg_right h1q (by norm_num)
  · exact div_le_div_of_nonneg_right h2q (by norm_num)

theorem pickCategory_mem (r : ℚ) (h0 : 0 ≤ r) (h1 : r < 1) :
    ∃ c, pickCategory r = some c ∧ c ∈ PRODUCT_CATEGORIES := by
  have hlen : PRODUCT_CATEGORIES.length = 10 := rfl
  have hk0 : 0 ≤ ⌊r * (PRODUCT_CATEGORIES.length : ℚ)⌋ := by
    rw [hlen]
    exact Int.floor_nonneg.mpr (by positivity)
  have hk1 : ⌊r * (PRODUCT_CATEGORIES.length : ℚ)⌋ < 10 := by
    rw [hlen, Int.floor_lt]
    push_cast
    linarith
  have hidx : (⌊r * (PRODUCT_CATEGORIES.length : ℚ)⌋).toNat < PRODUCT_CATEGORIES.length := by
    show (⌊r * (PRODUCT_CATEGORIES.length : ℚ)⌋).toNat < 10
    omega
  refine ⟨PRODUCT_CATEGORIES[(⌊r * (PRODUCT_CATEGORIES.length : ℚ)⌋).toNat], ?_,
    List.getElem_mem hidx⟩
  unfold pickCategory
  rw [if_pos hk0, List.get?_eq_getElem?, List.getElem?_eq_getElem hidx]

/-- Counterexample for C16: with the price and cost draws of the first record
at `1 - 2 ^ (-21)`, inside `[0, 1)`, the two-decimal rounding gives that
record the price `10100` and the cost `8050`: the upper bounds are reached. -/
theorem report_price_cost_reach_upper_bound :
    (∀ n, 0 ≤ upperEdgeDraw n ∧ upperEdgeDraw n < 1) ∧
    ∃ item ∈ generateMockReportData (initialState 30000) (.at 0) (.at 0) (.str "x")
        upperEdgeDraw (fun _ => 0),
      item.price = 10100 ∧ item.cost = 8050 ∧ ¬ (item.price < 10100) ∧ ¬ (item.cost < 8050) := by
  have hprice : toFixed2 ((2097151 / 2097152 : ℚ) * 10000 + 100) = 10100 := by
    have h : ⌊((2097151 / 2097152 : ℚ) * 10000 + 100) * 100 + 1 / 2⌋ = 1010000 := by
      rw [Int.floor_eq_iff]
      norm_num
    rw [toFixed2_of_nonneg _ (by norm_num), h]
    norm_num
  have hcost : toFixed2 ((2097151 / 2097152 : ℚ) * 8000 + 50) = 8050 := by
    have h : ⌊((2097151 / 2097152 : ℚ) * 8000 + 50) * 100 + 1 / 2⌋ = 805000 := by
      rw [Int.floor_eq_iff]
      norm_num
    rw [toFixed2_of_nonneg _ (by norm_num), h]
    norm_num
  have hcount : recordCount (upperEdgeDraw 0) = 500 := by
    simp [recordCount, upperEdgeDraw]
  refine ⟨?_, ?_⟩
  · intro n
    unfold upperEdgeDraw
    split <;> norm_num
  · refine ⟨withProfit (rawRecord (initialState 30000) (.at 0) (.at 0) (.str "x")
        upperEdgeDraw (fun _ => 0) 0), ?_, ?_⟩
    · rw [mem_generateMockReportData]
      exact ⟨0, by rw [hcount]; decide, rfl⟩
    · have hp : (withProfit (rawRecord (initialState 30000) (.at 0) (.at 0) (.str "x")
          upperEdgeDraw (fun _ => 0) 0)).price = 10100 := by
        simpa [withProfit, rawRecord, upperEdgeDraw] using hprice
      have hc : (withProfit (rawRecord (initialState 30000) (.at 0) (.at 0) (.str "x")
          upperEdgeDraw (fun _ => 0) 0)).cost = 8050 := by
        simpa [withProfit, rawRecord, upperEdgeDraw] using hcost
      refine ⟨hp, hc, ?_, ?_⟩
      · rw [hp]
        exact lt_irrefl _
      · rw [hc]
        exact lt_irrefl _

/-- C16 (amended): for random draws in `[0, 1)`, every record of a mock
report has a category from the fixed 10-label set, an integer quantity with
`1 ≤ quantity ≤ 1000`, a price with `100 ≤ price ≤ 10100` and a cost with
`50 ≤ cost ≤ 8050` (upper bounds included: the two-decimal rounding can
reach them). -/
theorem report_record_ranges (s : State) (startDate endDate : DateInput)
    (organizationId : Prim) (draw : Nat → ℚ) (clock : Nat → Int)
    (hdraw : ∀ n, 0 ≤ draw n ∧ draw n < 1) :
    ∀ item ∈ generateMockReportData s startDate endDate organizationId draw clock,
      (∃ c, item.category = some c ∧ c ∈ PRODUCT_CATEGORIES) ∧
      1 ≤ item.quantity ∧ item.quantity ≤ 1000 ∧
      100 ≤ item.price ∧ item.price ≤ 10100 ∧
      50 ≤ item.cost ∧ item.cost ≤ 8050 := by
  intro item hitem
  rw [mem_generateMockReportData] at hitem
  obtain ⟨i, _, rfl⟩ := hitem
  obtain ⟨hq0, hq1⟩ := hdraw (5 * i + 3)
  obtain ⟨hp0, hp1⟩ := hdraw (5 * i + 4)
  obtain ⟨hc0, hc1⟩ := hdraw (5 * i + 5)
  have hcat := pickCategory_mem (draw (5 * i + 2)) (hdraw (5 * i + 2)).1 (hdraw (5 * i + 2)).2
  have hqlo : 0 ≤ ⌊draw (5 * i + 3) * 1000⌋ := Int.floor_nonneg.mpr (by positivity)
  have hqhi : ⌊draw (5 * i + 3) * 1000⌋ < 1000 := by
    rw [Int.floor_lt]
    push_cast
    linarith
  have hprice := toFixed2_bounds (draw (5 * i + 4) * 10000 + 100) 10000 1010000
    (by positivity) (by norm_num; linarith) (by norm_num; linarith)
  have hcost := toFixed2_bounds (draw (5 * i + 5) * 8000 + 50) 5000 805000
    (by positivity) (by norm_num; linarith) (by norm_num; linarith)
  refine ⟨hcat, ?_, ?_, ?_, ?_, ?_, ?_⟩
  · show 1 ≤ ⌊draw (5 * i + 3) * 1000⌋ + 1
    omega
  · show ⌊draw (5 * i + 3) * 1000⌋ + 1 ≤ 1000
    omega
  · have h := hprice.1
    norm_num at h
    exact h
  · have h := hprice.2
    norm_num at h
    exact h
  · have h := hcost.1
    norm_num at h
    exact h
  · have h := hcost.2
    norm_num at h
    exact h

/-- Witness for C16 (amended): all draws zero; the first record then has
price 100 and cost 50, inside the ranges. -/
theorem report_record_ranges_witness :
    100 ≤ (withProfit (rawRecord (initialState 30000) (.at 0) (.at 0) (.str "x")
        (fun _ => 0) (fun _ => 0) 0)).price ∧
    (withProfit (rawRecord (initialState 30000) (.at 0) (.at 0) (.str "x")
        (fun _ => 0) (fun _ => 0) 0)).price ≤ 10100 :=
  ⟨(report_record_ranges (initialState 30000) (.at 0) (.at 0) (.str "x")
      (fun _ => 0) (fun _ => 0) (fun _ => ⟨le_refl 0, by norm_num⟩) _
      ((mem_generateMockReportData _ _ _ _ _ _ _).mpr
        ⟨0, by simp [recordCount], rfl⟩)).2.2.2.1,
   (report_record_ranges (initialState 30000) (.at 0) (.at 0) (.str "x")
      (fun _ => 0) (fun _ => 0) (fun _ => ⟨le_refl 0, by norm_num⟩) _
      ((mem_generateMockReportData _ _ _ _ _ _ _).mpr
        ⟨0, by simp [recordCount], rfl⟩)).2.2.2.2.1⟩

/-! ## Dates of the records of a mock report -/

theorem dayOffset_bounds (d : Int) (r : ℚ) (hd : 0 ≤ d) (h0 : 0 ≤ r) (h1 : r < 1) :
    0 ≤ ⌊r * ((d : ℚ) + 1)⌋ ∧ ⌊r * ((d : ℚ) + 1)⌋ ≤ d := by
  have hdq : (0 : ℚ) ≤ (d : ℚ) := by exact_mod_cast hd
  constructor
  · exact Int.floor_nonneg.mpr (by positivity)
  · have h : ⌊r * ((d : ℚ) + 1)⌋ < d + 1 := by
      rw [Int.floor_lt]
      push_cast
      nlinarith
    omega

/-- C17: for a period of two valid dates with `startDate` not after
`endDate` and random draws in `[0, 1)`, the date of every record of a mock
report is `startDate` moved forward by a whole number `k` of days with
`0 ≤ k ≤ diff`, `diff` the whole-day difference `endDate - startDate`; the
moved instant lies between `startDate` and `endDate`, and the civil day of
the record lies between the civil days of `startDate` and `endDate`. -/
theorem report_record_date_in_range (s : State) (b e : Int) (organizationId : Prim)
    (draw : Nat → ℚ) (clock : Nat → Int)
    (hdraw : ∀ n, 0 ≤ draw n ∧ draw n < 1) (hrange : b ≤ e) :
    ∀ item ∈ generateMockReportData s (.at b) (.at e) organizationId draw clock,
      ∃ k : Int, 0 ≤ k ∧ k ≤ Int.tdiv (e - b) MILLISECONDS_A_DAY ∧
        b ≤ b + k * MILLISECONDS_A_DAY ∧ b + k * MILLISECONDS_A_DAY ≤ e ∧
        item.date = some ((b + k * MILLISECONDS_A_DAY) / MILLISECONDS_A_DAY) ∧
        b / MILLISECONDS_A_DAY ≤ (b + k * MILLISECONDS_A_DAY) / MILLISECONDS_A_DAY ∧
        (b + k * MILLISECONDS_A_DAY) / MILLISECONDS_A_DAY ≤ e / MILLISECONDS_A_DAY := by
  intro item hitem
  rw [mem_generateMockReportData] at hitem
  obtain ⟨i, _, rfl⟩ := hitem
  have hDpos : 0 < MILLISECONDS_A_DAY := by decide
  have hdiff : Int.tdiv (e - b) MILLISECONDS_A_DAY = (e - b) / MILLISECONDS_A_DAY :=
    Int.tdiv_eq_ediv (by omega) (le_of_lt hDpos)
  have hd0 : 0 ≤ (e - b) / MILLISECONDS_A_DAY :=
    Int.ediv_nonneg (by omega) (le_of_lt hDpos)
  have hmul : (e - b) / MILLISECONDS_A_DAY * MILLISECONDS_A_DAY ≤ e - b :=
    Int.ediv_mul_le _ (ne_of_gt hDpos)
  obtain ⟨hk0, hk1⟩ := dayOffset_bounds ((e - b) / MILLISECONDS_A_DAY) (draw (5 * i + 1)) hd0
    (hdraw (5 * i + 1)).1 (hdraw (5 * i + 1)).2
  have hkD : ⌊draw (5 * i + 1) * ((((e - b) / MILLISECONDS_A_DAY : Int) : ℚ) + 1)⌋
      * MILLISECONDS_A_DAY ≤ (e - b) / MILLISECONDS_A_DAY * MILLISECONDS_A_DAY :=
    Int.mul_le_mul_of_nonneg_right hk1 (le_of_lt hDpos)
  have hkD0 : 0 ≤ ⌊draw (5 * i + 1) * ((((e - b) / MILLISECONDS_A_DAY : Int) : ℚ) + 1)⌋
      * MILLISECONDS_A_DAY :=
    Int.mul_nonneg hk0 (le_of_lt hDpos)
  have hle : b + ⌊draw (5 * i + 1) * ((((e - b) / MILLISECONDS_A_DAY : Int) : ℚ) + 1)⌋
      * MILLISECONDS_A_DAY ≤ e := by
    linarith
  have hge : b ≤ b + ⌊draw (5 * i + 1) * ((((e - b) / MILLISECONDS_A_DAY : Int) : ℚ) + 1)⌋
      * MILLISECONDS_A_DAY := by
    linarith
  refine ⟨⌊draw (5 * i + 1) * ((((e - b) / MILLISECONDS_A_DAY : Int) : ℚ) + 1)⌋,
    hk0, ?_, hge, hle, ?_, ?_, ?_⟩
  · rw [hdiff]
    exact hk1
  · simp [withProfit, rawRecord, formatAddDays, dayOffset, diffDays, dayjsValue, hdiff]
  · exact Int.ediv_le_ediv hDpos hge
  · exact Int.ediv_le_ediv hDpos hle

/-- Witness for C17: a period of three days and a half, all draws zero: the
first record is dated on the start day. -/
theorem report_record_date_in_range_witness :
    ∃ k : Int, 0 ≤ k ∧ k ≤ Int.tdiv (302400000 - 0) MILLISECONDS_A_DAY ∧
      0 ≤ 0 + k * MILLISECONDS_A_DAY ∧ 0 + k * MILLISECONDS_A_DAY ≤ 302400000 ∧
      (withProfit (rawRecord (initialState 30000) (.at 0) (.at 302400000) (.str "x")
        (fun _ => 0) (fun _ => 0) 0)).date
        = some ((0 + k * MILLISECONDS_A_DAY) / MILLISECONDS_A_DAY) ∧
      0 / MILLISECONDS_A_DAY ≤ (0 + k * MILLISECONDS_A_DAY) / MILLISECONDS_A_DAY ∧
      (0 + k * MILLISECONDS_A_DAY) / MILLISECONDS_A_DAY ≤ 302400000 / MILLISECONDS_A_DAY :=
  report_record_date_in_range (initialState 30000) 0 302400000 (.str "x")
    (fun _ => 0) (fun _ => 0) (fun _ => ⟨le_refl 0, by norm_num⟩) (by decide) _
    ((mem_generateMockReportData _ _ _ _ _ _ _).mpr ⟨0, by simp [recordCount], rfl⟩)

/-! ## Rounding to two decimals -/

theorem toFixed2_error (x : ℚ) : |toFixed2 x - x| ≤ 1 / 200 := by
  unfold toFixed2
  split
  · have h1 := Int.floor_le ((-x) * 100 + 1 / 2)
    have h2 := Int.lt_floor_add_one ((-x) * 100 + 1 / 2)
    rw [abs_le]
    constructor <;> linarith
  · have h1 := Int.floor_le (x * 100 + 1 / 2)
    have h2 := Int.lt_floor_add_one (x * 100 + 1 / 2)
    rw [abs_le]
    constructor <;> linarith

/-! ## Metadata of a mock report -/

theorem foldl_add_eq_sum (l : List ReportRecord) (f : ReportRecord → ℚ) (a : ℚ) :
    l.foldl (fun sum item => sum + f item) a = a + (l.map f).sum := by
  induction l generalizing a with
  | nil => simp
  | cons x t ih =>
    rw [List.foldl_cons, ih, List.map_cons, List.sum_cons]
    ring

theorem name_findOrgOr (s : State) (organizationId : Prim) (fallback : Obj) :
    objGet (findOrgOr s organizationId fallback) "name"
      = match s.mockOrganizations.find? (hasId organizationId) with
        | some o => objGet o "name"
        | none => objGet fallback "name" := by
  unfold findOrgOr
  cases s.mockOrganizations.find? (hasId organizationId) <;> rfl

/-- C19: under remote failure the `meta` of the report `calculateReport`
returns echoes `organizationId` and the period unchanged; `organizationName`
is the name of the first mock entry with that id, or the placeholder name
when no mock entry has it, and equals the `organization` field of every
record; `totalProfit` is the sum of the `profit` fields and
`averageProfitability` the sum of the `profitability` fields divided by the
number of records. -/
theorem calculateReport_fallback_meta (s : State) (startDate endDate : DateInput)
    (organizationId : Prim) (error : RemoteError) (draw : Nat → ℚ) (clock : Nat → Int)
    (tGenerated : String)
    (hs : startDate.truthy = true) (he : endDate.truthy = true)
    (hb : isBefore endDate startDate = false) :
    ∃ data info,
      (calculateReport s startDate endDate organizationId (.error error) draw clock
        tGenerated).result = .ok (.mock data info) ∧
      info.organizationId = organizationId ∧
      info.periodStart = startDate ∧ info.periodEnd = endDate ∧
      info.organizationName
        = (match s.mockOrganizations.find? (hasId organizationId) with
          | some o => objGet o "name"
          | none => .str "Тестовая организация") ∧
      (∀ item ∈ data, item.organization = info.organizationName) ∧
      info.totalProfit = (data.map (fun item => item.profit)).sum ∧
      info.averageProfitability
        = (data.map (fun item => item.profitability)).sum / (data.length : ℚ) := by
  refine ⟨_, _, calculateReport_fallback_result s startDate endDate organizationId error draw
    clock tGenerated hs he hb, rfl, rfl, rfl, ?_, ?_, ?_, ?_⟩
  · exact name_findOrgOr s organizationId _
  · intro item hitem
    rw [mem_generateMockReportData] at hitem
    obtain ⟨i, _, rfl⟩ := hitem
    show objGet (findOrgOr s organizationId _) "name" = objGet (findOrgOr s organizationId _) "name"
    rw [name_findOrgOr, name_findOrgOr]
    cases s.mockOrganizations.find? (hasId organizationId) <;> rfl
  · show List.foldl _ 0 _ = _
    rw [foldl_add_eq_sum _ (fun item => item.profit), zero_add]
  · show List.foldl _ 0 _ / _ = _
    rw [foldl_add_eq_sum _ (fun item => item.profitability), zero_add]

/-- Witness for C19: a report for the first static organization over one
week, server unreachable. -/
theorem calculateReport_fallback_meta_witness :
    ∃ data info,
      (calculateReport (initialState 30000) (.at 0) (.at 604800000)
        (.str "11111111-1111-1111-1111-111111111111") (.error networkError)
        (fun _ => 0) (fun _ => 0) "2024-02-01T00:00:00Z").result = .ok (.mock data info) ∧
      info.organizationId = .str "11111111-1111-1111-1111-111111111111" ∧
      info.periodStart = .at 0 ∧ info.periodEnd = .at 604800000 ∧
      info.organizationName
        = (match (initialState 30000).mockOrganizations.find?
            (hasId (.str "11111111-1111-1111-1111-111111111111")) with
          | some o => objGet o "name"
          | none => .str "Тестовая организация") ∧
      (∀ item ∈ data, item.organization = info.organizationName) ∧
      info.totalProfit = (data.map (fun item => item.profit)).sum ∧
      info.averageProfitability
        = (data.map (fun item => item.profitability)).sum / (data.length : ℚ) :=
  calculateReport_fallback_meta (initialState 30000) (.at 0) (.at 604800000)
    (.str "11111111-1111-1111-1111-111111111111") networkError
    (fun _ => 0) (fun _ => 0) "2024-02-01T00:00:00Z" rfl rfl (by decide)

/-! ## The availability flag follows the outcome of the request -/

/-- C20: for `getOrganizations`, `getOrganizationById`, `createOrganization`,
`updateOrganization`, `deleteOrganization`, `calculateReport` and
`checkServerConnection`: a call sends no request or one; when it sends none,
`serverStatus.available` is unchanged; when it sends one that is not
cancelled, `serverStatus.available` afterwards is `true` if the request
succeeded and `false` if it failed, whatever the call then returns or
raises. -/
theorem available_follows_request (D : Int) (s : State) (c : ApiCall) :
    ((runApiCall D s c).2 = 0 ∨ (runApiCall D s c).2 = 1) ∧
    ((runApiCall D s c).2 = 0 →
      (runApiCall D s c).1.serverStatus.available = s.serverStatus.available) ∧
    ((runApiCall D s c).2 = 1 → c.cancelled = false →
      (runApiCall D s c).1.serverStatus.available = succeeded c.remote) := by
  cases c with
  | getOrganizations forceRefresh tCheck remote tStatus tCache =>
    by_cases hg : (!forceRefresh && isCacheValid s "organizations" tCheck) = true
    · simp [runApiCall, getOrganizations, hg]
    · cases remote with
      | ok data =>
        simp [runApiCall, getOrganizations, hg, ApiCall.remote, succeeded]
      | error e =>
        by_cases he : (e.name == "AbortError") = true
        · simp [runApiCall, getOrganizations, hg, he, ApiCall.cancelled]
        · simp [runApiCall, getOrganizations, hg, he, ApiCall.remote, succeeded]
  | getOrganizationById id tCheck remote tStatus =>
    have hremote : (getOrganizationByIdRemote s id remote tStatus).calls = 1 ∧
        (getOrganizationByIdRemote s id remote tStatus).state.serverStatus.available
          = succeeded remote := by
      cases remote with
      | ok data => simp [getOrganizationByIdRemote, succeeded]
      | error e =>
        cases hf : s.mockOrganizations.find? (hasId id) <;>
          simp [getOrganizationByIdRemote, succeeded, hf]
    by_cases hv : isCacheValid s "organizations" tCheck = true
    · cases hd : readCacheData s "organizations" with
      | error x => simp [runApiCall, getOrganizationById, hv, hd]
      | ok p =>
        cases p with
        | list xs =>
          cases hf : xs.find? (hasId id) with
          | some org => simp [runApiCall, getOrganizationById, hv, hd, hf]
          | none =>
            simp [runApiCall, getOrganizationById, hv, hd, hf, hremote.1, hremote.2,
              ApiCall.remote]
        | prim q => simp [runApiCall, getOrganizationById, hv, hd]
        | record o => simp [runApiCall, getOrganizationById, hv, hd]
        | wrapped xs => simp [runApiCall, getOrganizationById, hv, hd]
    · simp [runApiCall, getOrganizationById, hv, hremote.1, hremote.2, ApiCall.remote]
  | createOrganization organization uuid tCreated tUpdated remote =>
    cases remote with
    | ok data => simp [runApiCall, createOrganization, ApiCall.remote, succeeded]
    | error e =>
      by_cases hany : s.mockOrganizations.any
          (fun o => objGet o "id" == objGet (newOrg organization uuid tCreated tUpdated) "id")
            = true
      · simp [runApiCall, createOrganization, ApiCall.remote, succeeded, hany]
      · simp [runApiCall, createOrganization, ApiCall.remote, succeeded, hany]
  | updateOrganization id updatedData remote tUpdated =>
    cases remote with
    | ok data => simp [runApiCall, updateOrganization, ApiCall.remote, succeeded]
    | error e =>
      cases hidx : s.mockOrganizations.findIdx? (hasId id) <;>
        simp [runApiCall, updateOrganization, ApiCall.remote, succeeded, hidx]
  | deleteOrganization id remote tDeleted =>
    cases remote with
    | ok data => simp [runApiCall, deleteOrganization, ApiCall.remote, succeeded]
    | error e =>
      cases hidx : s.mockOrganizations.findIdx? (hasId id) <;>
        simp [runApiCall, deleteOrganization, ApiCall.remote, succeeded, hidx]
  | calculateReport startDate endDate organizationId remote draw clock tGenerated =>
    by_cases hm : (!startDate.truthy || !endDate.truthy) = true
    · simp [runApiCall, calculateReport, hm]
    · by_cases hb : isBefore endDate startDate = true
      · simp [runApiCall, calculateReport, hm, hb]
      · cases remote with
        | ok data => simp [runApiCall, calculateReport, hm, hb, ApiCall.remote, succeeded]
        | error e => simp [runApiCall, calculateReport, hm, hb, ApiCall.remote, succeeded]
  | checkServerConnection remote tStatus =>
    cases remote with
    | ok data => simp [runApiCall, checkServerConnection, ApiCall.remote, succeeded]
    | error e => simp [runApiCall, checkServerConnection, ApiCall.remote, succeeded]

/-- Witness for C20: a create that collides with a static mock id while the
server is unreachable raises DuplicateId and still leaves the flag `false`;
a cache hit sends no request and leaves the flag as it was. -/
theorem available_follows_request_witness :
    (runApiCall 30000 (initialState 30000)
        (.createOrganization [("id", .str "11111111-1111-1111-1111-111111111111")] "u-1"
          "2024-02-01T00:00:00Z" "2024-02-01T00:00:00Z"
          (.error networkError))).1.serverStatus.available = false ∧
    (runApiCall 30000
        (setCache 30000 (initialState 30000) "organizations" (.value (.list [])) 1000)
        (.getOrganizations false 2000 (.error networkError) 2001
          2002)).1.serverStatus.available = true :=
  ⟨(available_follows_request 30000 (initialState 30000)
      (.createOrganization [("id", .str "11111111-1111-1111-1111-111111111111")] "u-1"
        "2024-02-01T00:00:00Z" "2024-02-01T00:00:00Z" (.error networkError))).2.2
      (by decide) (by decide),
   (available_follows_request 30000
      (setCache 30000 (initialState 30000) "organizations" (.value (.list [])) 1000)
      (.getOrganizations false 2000 (.error networkError) 2001 2002)).2.1 (by decide)⟩

/-! ## Errors raised by the read operations -/

theorem readCacheData_ok_of_valid (s : State) (k : String) (now : Int)
    (h : isCacheValid s k now = true) : ∃ v, readCacheData s k = .ok v := by
  unfold isCacheValid at h
  unfold readCacheData
  cases hl : List.lookup k s.cache with
  | none => simp [hl] at h
  | some item =>
    cases hd : item.data with
    | value p => exact ⟨p, by simp [hd]⟩
    | mockRef => exact ⟨.list s.mockOrganizations, by simp [hd]⟩

/-- Counterexample for C21: `calculateReport` without an end date raises
MissingPeriod, which is neither Cancelled nor InvalidResponseShape. -/
theorem calculateReport_raises_missingPeriod :
    ∃ err, (calculateReport (initialState 30000) (.at 0) .missing (.str "x")
        (.error networkError) (fun _ => 0) (fun _ => 0) "2024-02-01T00:00:00Z").result
        = .error err ∧
      err.kind ≠ .cancelled ∧ err.kind ≠ .invalidResponseShape :=
  ⟨.missingPeriod, rfl, by decide, by decide⟩

/-- C21 (amended): whenever `getOrganizations` raises, the error is the
cancellation its request was rejected with; whenever `calculateReport`
raises, the error is MissingPeriod or InvalidRange, raised by the validation
before any request. A request that fails without being cancelled makes
neither of them raise: `getOrganizations` then returns a value, and so does
`calculateReport` for a period that passes validation. -/
theorem read_operations_raise_only (D : Int) (s : State) :
    (∀ forceRefresh tCheck remote tStatus tCache err,
      (getOrganizations D s forceRefresh tCheck remote tStatus tCache).result = .error err →
      err.kind = .cancelled ∧ ∃ e, remote = .error e ∧ err = .remote e) ∧
    (∀ forceRefresh tCheck remote tStatus tCache,
      (∀ e, remote = .error e → e.name ≠ "AbortError") →
      ∃ v, (getOrganizations D s forceRefresh tCheck remote tStatus tCache).result = .ok v) ∧
    (∀ startDate endDate organizationId remote draw clock tGenerated err,
      (calculateReport s startDate endDate organizationId remote draw clock tGenerated).result
        = .error err →
      (err = .missingPeriod ∨ err = .invalidRange) ∧
      (calculateReport s startDate endDate organizationId remote draw clock tGenerated).calls
        = 0) ∧
    (∀ startDate endDate organizationId remote draw clock tGenerated,
      startDate.truthy = true → endDate.truthy = true → isBefore endDate startDate = false →
      ∃ v, (calculateReport s startDate endDate organizationId remote draw clock
        tGenerated).result = .ok v) := by
  refine ⟨?_, ?_, ?_, ?_⟩
  · intro forceRefresh tCheck remote tStatus tCache err h
    by_cases hg : (!forceRefresh && isCacheValid s "organizations" tCheck) = true
    · have hv : isCacheValid s "organizations" tCheck = true := by
        simp only [Bool.and_eq_true] at hg
        exact hg.2
      obtain ⟨v, hv2⟩ := readCacheData_ok_of_valid s _ _ hv
      simp [getOrganizations, hg, hv2] at h
    · cases remote with
      | ok data => simp [getOrganizations, hg] at h
      | error e =>
        by_cases he : (e.name == "AbortError") = true
        · simp only [getOrganizations, hg, he] at h
          simp only [Bool.false_eq_true, if_false, if_true, Except.error.injEq] at h
          subst h
          exact ⟨by simp [JsError.kind, he], e, rfl, rfl⟩
        · simp [getOrganizations, hg, he] at h
  · intro forceRefresh tCheck remote tStatus tCache hnc
    by_cases hg : (!forceRefresh && isCacheValid s "organizations" tCheck) = true
    · have hv : isCacheValid s "organizations" tCheck = true := by
        simp only [Bool.and_eq_true] at hg
        exact hg.2
      obtain ⟨v, hv2⟩ := readCacheData_ok_of_valid s _ _ hv
      exact ⟨v, by simp [getOrganizations, hg, hv2]⟩
    · cases remote with
      | ok data => exact ⟨data, by simp [getOrganizations, hg]⟩
      | error e =>
        have hne : (e.name == "AbortError") = false := by simpa using hnc e rfl
        exact ⟨.list s.mockOrganizations, by simp [getOrganizations, hg, hne]⟩
  · intro startDate endDate organizationId remote draw clock tGenerated err h
    by_cases hm : (!startDate.truthy || !endDate.truthy) = true
    · simp only [calculateReport, hm, if_true, Except.error.injEq] at h ⊢
      exact ⟨Or.inl h.symm, trivial⟩
    · by_cases hb : isBefore endDate startDate = true
      · simp only [calculateReport, hm, hb, if_true, Bool.false_eq_true, if_false,
          Except.error.injEq] at h ⊢
        exact ⟨Or.inr h.symm, trivial⟩
      · cases remote with
        | ok data => simp [calculateReport, hm, hb] at h
        | error e => simp [calculateReport, hm, hb] at h
  · intro startDate endDate organizationId remote draw clock tGenerated hs he hb
    cases remote with
    | ok data => simp [calculateReport, hs, he, hb]
    | error e => simp [calculateReport, hs, he, hb]

/-- Witness for C21 (amended): a cancelled forced refresh raises the
cancellation; a report request with the end date before the start date raises
InvalidRange without sending a request. -/
theorem read_operations_raise_only_witness :
    (JsError.remote { name := "AbortError", message := "canceled" }).kind = .cancelled ∧
    (calculateReport (initialState 30000) (.at 86400000) (.at 0) (.str "x")
        (.error networkError) (fun _ => 0) (fun _ => 0) "2024-02-01T00:00:00Z").calls = 0 :=
  ⟨((read_operations_raise_only 30000 (initialState 30000)).1 true 1000
      (.error { name := "AbortError", message := "canceled" }) 1001 1002
      (.remote { name := "AbortError", message := "canceled" }) (by decide)).1,
   ((read_operations_raise_only 30000 (initialState 30000)).2.2.1 (.at 86400000) (.at 0)
      (.str "x") (.error networkError) (fun _ => 0) (fun _ => 0) "2024-02-01T00:00:00Z"
      .invalidRange rfl).2⟩

/-! ## Validity of cache entries -/

theorem lookup_map_emptySlot (D : Int) (c : List (String × CacheItem)) (k : String) :
    List.lookup k (c.map (fun p => (p.1, emptySlot D)))
      = (List.lookup k c).map (fun _ => emptySlot D) := by
  induction c with
  | nil => rfl
  | cons p t ih =>
    obtain ⟨a, b⟩ := p
    rw [List.map_cons, List.lookup_cons, List.lookup_cons]
    cases k == a with
    | true => rfl
    | false => exact ih

theorem isCacheValid_emptySlot (D : Int) (s : State) (k : String) (now : Int)
    (h : List.lookup k s.cache = some (emptySlot D)) : isCacheValid s k now = false := by
  rw [isCacheValid_of_lookup s k now _ h]
  simp [emptySlot, CacheData.truthy, Payload.truthy, Prim.truthy]

theorem isCacheValid_clearAll (D : Int) (s : State) (k : String) (now : Int) :
    isCacheValid { s with cache := s.cache.map (fun p => (p.1, emptySlot D)) } k now
      = false := by
  cases hl : List.lookup k s.cache with
  | none =>
    have h2 : List.lookup k (s.cache.map (fun p => (p.1, emptySlot D))) = none := by
      rw [lookup_map_emptySlot, hl]
      rfl
    simp [isCacheValid, h2]
  | some item =>
    apply isCacheValid_emptySlot D
    show List.lookup k (s.cache.map (fun p => (p.1, emptySlot D))) = some (emptySlot D)
    rw [lookup_map_emptySlot, hl]
    rfl

/-- Counterexample for C22: the server answers `getOrganizations` with an
empty text body; the cache entry then holds data that is not `null`, and the
clock has not moved since the entry was written, yet `isCacheValid` is
false. -/
theorem isCacheValid_false_on_empty_text :
    List.lookup "organizations"
        (getOrganizations 30000 (initialState 30000) false 1000
          (.ok (.prim (.str ""))) 1001 1002).state.cache
      = some { data := .value (.prim (.str "")), timestamp := 1002, duration := 30000 } ∧
    CacheData.value (.prim (.str "")) ≠ CacheData.value (.prim .null) ∧
    (1002 : Int) - 1002 < 30000 ∧
    isCacheValid
        (getOrganizations 30000 (initialState 30000) false 1000
          (.ok (.prim (.str ""))) 1001 1002).state
        "organizations" 1002 = false := by
  refine ⟨by decide, by decide, by decide, by decide⟩

/-- C22 (amended): for every cache entry and every clock value `now`,
`isCacheValid(key)` holds if and only if the data of the entry is truthy (not
`null`, `undefined`, `false`, `0` or the empty text) and
`now - timestamp < duration`; it is true immediately after
`setCache(key, data)` for any truthy data (an empty list included) when the
duration is positive, and false for every key after `clearCache(key)` and
after `clearCache()`. -/
theorem isCacheValid_iff (D : Int) (s : State) (key : String) (now : Int) :
    (∀ item, List.lookup key s.cache = some item →
      (isCacheValid s key now = true ↔
        item.data.truthy = true ∧ now - item.timestamp < item.duration)) ∧
    (∀ data, data.truthy = true → 0 < D →
      isCacheValid (setCache D s key data now) key now = true) ∧
    (0 < D → isCacheValid (setCache D s key (.value (.list [])) now) key now = true) ∧
    isCacheValid (clearCache D s (some key)) key now = false ∧
    isCacheValid (clearCache D s none) key now = false := by
  have hset : ∀ data, data.truthy = true → 0 < D →
      isCacheValid (setCache D s key data now) key now = true := by
    intro data hd hD
    rw [isCacheValid_of_lookup _ _ _ _ (lookup_setCache D s key data now)]
    simp [hd, hD]
  refine ⟨?_, hset, ?_, ?_, ?_⟩
  · intro item hitem
    rw [isCacheValid_of_lookup s key now item hitem]
    simp
  · intro hD
    exact hset _ rfl hD
  · unfold clearCache
    by_cases hk : (key != "") = true
    · simp only [hk, if_true]
      apply isCacheValid_emptySlot D
      exact lookup_propAssign_self s.cache key (emptySlot D)
    · simp only [hk, Bool.false_eq_true, if_false]
      exact isCacheValid_clearAll D s key now
  · exact isCacheValid_clearAll D s key now

/-- Witness for C22 (amended): an empty list stored at time 1000 with the
default duration is valid at time 1000. -/
theorem isCacheValid_iff_witness :
    isCacheValid (setCache 30000 (initialState 30000) "organizations" (.value (.list [])) 1000)
      "organizations" 1000 = true :=
  (isCacheValid_iff 30000 (initialState 30000) "organizations" 1000).2.2.1 (by decide)

/-! ## checkServerConnection and getServerStatus -/

/-- C23: `checkServerConnection` never raises: for every outcome of the
health probe it returns a boolean, `true` exactly when the probe succeeded,
and `getServerStatus` evaluated on the state it leaves returns that same
boolean. (`getServerStatus` only reads `serverStatus.available`: it has no
state to return.) -/
theorem checkServerConnection_boolean (s : State) (remote : Except RemoteError Payload)
    (tStatus : Int) :
    (checkServerConnection s remote tStatus).result = .ok (.prim (.bool (succeeded remote))) ∧
    getServerStatus (checkServerConnection s remote tStatus).state = succeeded remote ∧
    (succeeded remote = true ↔ ∃ data, remote = .ok data) := by
  cases remote with
  | ok data => simp [checkServerConnection, getServerStatus, succeeded]
  | error e => simp [checkServerConnection, getServerStatus, succeeded]

/-! ## Sessions in which every request fails -/

theorem cacheFollowsMock_of_cache_eq (s t : State) (h : t.cache = s.cache)
    (hs : cacheFollowsMock s) : cacheFollowsMock t := by
  unfold cacheFollowsMock at hs ⊢
  rw [h]
  exact hs

theorem cacheFollowsMock_clearCache (D : Int) (s : State) :
    cacheFollowsMock (clearCache D s (some "organizations")) :=
  ⟨emptySlot D, lookup_clearCache_organizations D s, Or.inr rfl⟩

theorem cacheFollowsMock_setCache (D : Int) (s : State) (now : Int) :
    cacheFollowsMock (setCache D s "organizations" .mockRef now) :=
  ⟨_, lookup_setCache D s "organizations" .mockRef now, Or.inl rfl⟩

theorem cacheFollowsMock_initialState (D : Int) : cacheFollowsMock (initialState D) :=
  ⟨emptySlot D, rfl, Or.inr rfl⟩

theorem cacheFollowsMock_step (D : Int) (s : State) (c : ApiCall)
    (hs : cacheFollowsMock s) (hfail : succeeded c.remote = false) :
    cacheFollowsMock (runApiCall D s c).1 := by
  cases c with
  | getOrganizations forceRefresh tCheck remote tStatus tCache =>
    cases remote with
    | ok data => simp [ApiCall.remote, succeeded] at hfail
    | error e =>
      by_cases hg : (!forceRefresh && isCacheValid s "organizations" tCheck) = true
      · simpa [runApiCall, getOrganizations, hg] using hs
      · by_cases he : (e.name == "AbortError") = true
        · simpa [runApiCall, getOrganizations, hg, he] using hs
        · simp only [runApiCall, getOrganizations, hg, he, Bool.false_eq_true, if_false]
          exact cacheFollowsMock_setCache D _ tCache
  | getOrganizationById id tCheck remote tStatus =>
    cases remote with
    | ok data => simp [ApiCall.remote, succeeded] at hfail
    | error e =>
      apply cacheFollowsMock_of_cache_eq s _ _ hs
      have hremote : (getOrganizationByIdRemote s id (.error e) tStatus).state.cache
          = s.cache := by
        cases hf : s.mockOrganizations.find? (hasId id) <;>
          simp [getOrganizationByIdRemote, hf]
      by_cases hv : isCacheValid s "organizations" tCheck = true
      · cases hd : readCacheData s "organizations" with
        | error x => simp [runApiCall, getOrganizationById, hv, hd]
        | ok p =>
          cases p with
          | list xs =>
            cases hf : xs.find? (hasId id) with
            | some org => simp [runApiCall, getOrganizationById, hv, hd, hf]
            | none => simp [runApiCall, getOrganizationById, hv, hd, hf, hremote]
          | prim q => simp [runApiCall, getOrganizationById, hv, hd]
          | record o => simp [runApiCall, getOrganizationById, hv, hd]
          | wrapped xs => simp [runApiCall, getOrganizationById, hv, hd]
      · simp [runApiCall, getOrganizationById, hv, hremote]
  | createOrganization organization uuid tCreated tUpdated remote =>
    cases remote with
    | ok data => simp [ApiCall.remote, succeeded] at hfail
    | error e =>
      by_cases hany : s.mockOrganizations.any
          (fun o => objGet o "id" == objGet (newOrg organization uuid tCreated tUpdated) "id")
            = true
      · apply cacheFollowsMock_of_cache_eq s _ _ hs
        simp [runApiCall, createOrganization, hany]
      · simp only [runApiCall, createOrganization, hany, Bool.false_eq_true, if_false]
        exact cacheFollowsMock_clearCache D _
  | updateOrganization id updatedData remote tUpdated =>
    cases remote with
    | ok data => simp [ApiCall.remote, succeeded] at hfail
    | error e =>
      cases hidx : s.mockOrganizations.findIdx? (hasId id) with
      | none =>
        apply cacheFollowsMock_of_cache_eq s _ _ hs
        simp [runApiCall, updateOrganization, hidx]
      | some index =>
        simp only [runApiCall, updateOrganization, hidx]
        exact cacheFollowsMock_clearCache D _
  | deleteOrganization id remote tDeleted =>
    cases remote with
    | ok data => simp [ApiCall.remote, succeeded] at hfail
    | error e =>
      cases hidx : s.mockOrganizations.findIdx? (hasId id) with
      | none =>
        apply cacheFollowsMock_of_cache_eq s _ _ hs
        simp [runApiCall, deleteOrganization, hidx]
      | some index =>
        simp only [runApiCall, deleteOrganization, hidx]
        exact cacheFollowsMock_clearCache D _
  | calculateReport startDate endDate organizationId remote draw clock tGenerated =>
    apply cacheFollowsMock_of_cache_eq s _ _ hs
    by_cases hm : (!startDate.truthy || !endDate.truthy) = true
    · simp [runApiCall, calculateReport, hm]
    · by_cases hb : isBefore endDate startDate = true
      · simp [runApiCall, calculateReport, hm, hb]
      · cases remote with
        | ok data => simp [runApiCall, calculateReport, hm, hb]
        | error e => simp [runApiCall, calculateReport, hm, hb]
  | checkServerConnection remote tStatus =>
    apply cacheFollowsMock_of_cache_eq s _ _ hs
    cases remote with
    | ok data => simp [runApiCall, checkServerConnection]
    | error e => simp [runApiCall, checkServerConnection]

theorem cacheFollowsMock_runSession (D : Int) (calls : List ApiCall) (s : State)
    (hs : cacheFollowsMock s) (hfail : ∀ c ∈ calls, succeeded c.remote = false) :
    cacheFollowsMock (runSession D s calls) := by
  induction calls generalizing s with
  | nil => exact hs
  | cons c t ih =>
    show cacheFollowsMock (runSession D (runApiCall D s c).1 t)
    exact ih _ (cacheFollowsMock_step D s c hs (hfail c (List.mem_cons_self c t)))
      (fun x hx => hfail x (List.mem_cons_of_mem c hx))

theorem readCacheData_of_cacheFollowsMock (s : State) (now : Int)
    (hs : cacheFollowsMock s) (hv : isCacheValid s "organizations" now = true) :
    readCacheData s "organizations" = .ok (.list s.mockOrganizations) := by
  obtain ⟨item, hitem, hdata⟩ := hs
  rw [isCacheValid_of_lookup s _ _ item hitem] at hv
  rcases hdata with hd | hd
  · simp [readCacheData, hitem, hd]
  · simp [hd, CacheData.truthy, Payload.truthy, Prim.truthy] at hv

/-- C24: in a session that starts from the initial module state and in which
every request fails, after any sequence of calls of the operations, a
`getOrganizations` call whose request is not cancelled (with or without
`forceRefresh`, at any clock value) returns exactly the mock list as it
stands at that moment; and whenever the organizations cache is valid, the
data it holds is the current mock list. -/
theorem getOrganizations_in_failing_session (D : Int) (calls : List ApiCall)
    (hfail : ∀ c ∈ calls, succeeded c.remote = false)
    (forceRefresh : Bool) (tCheck : Int) (error : RemoteError) (tStatus tCache : Int)
    (hnc : error.name ≠ "AbortError") :
    (getOrganizations D (runSession D (initialState D) calls) forceRefresh tCheck
        (.error error) tStatus tCache).result
      = .ok (.list (runSession D (initialState D) calls).mockOrganizations) ∧
    (∀ now, isCacheValid (runSession D (initialState D) calls) "organizations" now = true →
      readCacheData (runSession D (initialState D) calls) "organizations"
        = .ok (.list (runSession D (initialState D) calls).mockOrganizations)) := by
  have hinv := cacheFollowsMock_runSession D calls (initialState D)
    (cacheFollowsMock_initialState D) hfail
  refine ⟨?_, fun now hv => readCacheData_of_cacheFollowsMock _ now hinv hv⟩
  by_cases hg : (!forceRefresh && isCacheValid (runSession D (initialState D) calls)
      "organizations" tCheck) = true
  · have hv : isCacheValid (runSession D (initialState D) calls) "organizations" tCheck
        = true := by
      simp only [Bool.and_eq_true] at hg
      exact hg.2
    simp [getOrganizations, hg, readCacheData_of_cacheFollowsMock _ tCheck hinv hv]
  · have hne : (error.name == "AbortError") = false := by simpa using hnc
    simp [getOrganizations, hg, hne]

/-- Witness for C24: a fallback read fills the cache, a fallback create and a
fallback delete change the mock list, and a cached-or-not read follows. -/
theorem getOrganizations_in_failing_session_witness :
    (getOrganizations 30000
        (runSession 30000 (initialState 30000)
          [.getOrganizations false 1000 (.error networkError) 1001 1002,
           .createOrganization [("name", .str "Новая")] "u-1" "2024-02-01T00:00:00Z"
             "2024-02-01T00:00:00Z" (.error networkError),
           .deleteOrganization (.str "22222222-2222-2222-2222-222222222222")
             (.error networkError) "2024-02-01T00:00:01Z"])
        false 2000 (.error networkError) 2001 2002).result
      = .ok (.list (runSession 30000 (initialState 30000)
          [.getOrganizations false 1000 (.error networkError) 1001 1002,
           .createOrganization [("name", .str "Новая")] "u-1" "2024-02-01T00:00:00Z"
             "2024-02-01T00:00:00Z" (.error networkError),
           .deleteOrganization (.str "22222222-2222-2222-2222-222222222222")
             (.error networkError) "2024-02-01T00:00:01Z"]).mockOrganizations) :=
  (getOrganizations_in_failing_session 30000
    [.getOrganizations false 1000 (.error networkError) 1001 1002,
     .createOrganization [("name", .str "Новая")] "u-1" "2024-02-01T00:00:00Z"
       "2024-02-01T00:00:00Z" (.error networkError),
     .deleteOrganization (.str "22222222-2222-2222-2222-222222222222")
       (.error networkError) "2024-02-01T00:00:01Z"]
    (by decide) false 2000 networkError 2001 2002 (by decide)).1

/-! ## getOrganizationById on a cached response wrapper -/

/-- C25 (the code at the failing input): the server answers `getOrganizations`
with the wrapper `{ data: [...] }`, which is cached as it is; a
`getOrganizationById` made while that entry is valid calls `.find` on the
wrapper and raises a `TypeError` before any request, where a request would
have succeeded. -/
theorem getOrganizationById_typeError_on_wrapper :
    isCacheValid
        (getOrganizations 30000 (initialState 30000) false 1000
          (.ok (.wrapped mockOrganizations)) 1001 1002).state "organizations" 2000 = true ∧
    (getOrganizationById
        (getOrganizations 30000 (initialState 30000) false 1000
          (.ok (.wrapped mockOrganizations)) 1001 1002).state
        (.str "11111111-1111-1111-1111-111111111111") 2000
        (.ok (.record [("id", .str "11111111-1111-1111-1111-111111111111")])) 2001).result
      = .error .typeError ∧
    (getOrganizationById
        (getOrganizations 30000 (initialState 30000) false 1000
          (.ok (.wrapped mockOrganizations)) 1001 1002).state
        (.str "11111111-1111-1111-1111-111111111111") 2000
        (.ok (.record [("id", .str "11111111-1111-1111-1111-111111111111")])) 2001).calls
      = 0 := by
  refine ⟨by decide, by decide, by decide⟩

/-! ## The time stamp of the availability flag -/

/-- C26 (the code at the failing input): `createOrganization` with the server
unreachable writes `serverStatus.available` but leaves
`serverStatus.lastCheck` at its initial value `0`; in every state and for
every outcome of the request, `createOrganization`, `updateOrganization`,
`deleteOrganization` and `calculateReport` leave `serverStatus.lastCheck` as
it was. -/
theorem lastCheck_not_refreshed :
    (createOrganization 30000 (initialState 30000) [("name", .str "Новая")] "u-1"
        "2024-02-01T00:00:00Z" "2024-02-01T00:00:00Z" (.error networkError)).state.serverStatus
      = { available := false, lastCheck := 0, checkInterval := 60000 } ∧
    (∀ D s organization uuid tCreated tUpdated remote,
      (createOrganization D s organization uuid tCreated tUpdated
        remote).state.serverStatus.lastCheck = s.serverStatus.lastCheck) ∧
    (∀ D s id updatedData remote tUpdated,
      (updateOrganization D s id updatedData remote tUpdated).state.serverStatus.lastCheck
        = s.serverStatus.lastCheck) ∧
    (∀ D s id remote tDeleted,
      (deleteOrganization D s id remote tDeleted).state.serverStatus.lastCheck
        = s.serverStatus.lastCheck) ∧
    (∀ s startDate endDate organizationId remote draw clock tGenerated,
      (calculateReport s startDate endDate organizationId remote draw clock
        tGenerated).state.serverStatus.lastCheck = s.serverStatus.lastCheck) := by
  refine ⟨by decide, ?_, ?_, ?_, ?_⟩
  · intro D s organization uuid tCreated tUpdated remote
    cases remote with
    | ok data => simp [createOrganization]
    | error e =>
      by_cases hany : s.mockOrganizations.any
          (fun o => objGet o "id" == objGet (newOrg organization uuid tCreated tUpdated) "id")
            = true
      · simp [createOrganization, hany]
      · simp [createOrganization, hany]
  · intro D s id updatedData remote tUpdated
    cases remote with
    | ok data => simp [updateOrganization]
    | error e =>
      cases hidx : s.mockOrganizations.findIdx? (hasId id) <;>
        simp [updateOrganization, hidx]
  · intro D s id remote tDeleted
    cases remote with
    | ok data => simp [deleteOrganization]
    | error e =>
      cases hidx : s.mockOrganizations.findIdx? (hasId id) <;>
        simp [deleteOrganization, hidx]
  · intro s startDate endDate organizationId remote draw clock tGenerated
    by_cases hm : (!startDate.truthy || !endDate.truthy) = true
    · simp [calculateReport, hm]
    · by_cases hb : isBefore endDate startDate = true
      · simp [calculateReport, hm, hb]
      · cases remote with
        | ok data => simp [calculateReport, hm, hb]
        | error e => simp [calculateReport, hm, hb]

/-! ## Number of records of a mock report -/

/-- C27: for every random draw `r` in `[0, 1)`, the number of records
`generateMockReportData` produces, `max(50, min(1000, floor(500 * r) + 500))`,
is `floor(500 * r) + 500`, at least 500 and at most 999. -/
theorem recordCount_of_unit_draw (s : State) (startDate endDate : DateInput)
    (organizationId : Prim) (draw : Nat → ℚ) (clock : Nat → Int)
    (h0 : 0 ≤ draw 0) (h1 : draw 0 < 1) :
    recordCount (draw 0) = ⌊draw 0 * 500⌋ + 500 ∧
    ((generateMockReportData s startDate endDate organizationId draw clock).length : Int)
      = recordCount (draw 0) ∧
    500 ≤ (generateMockReportData s startDate endDate organizationId draw clock).length ∧
    (generateMockReportData s startDate endDate organizationId draw clock).length ≤ 999 := by
  have hlo : 0 ≤ ⌊draw 0 * 500⌋ := Int.floor_nonneg.mpr (by positivity)
  have hhi : ⌊draw 0 * 500⌋ < 500 := by
    rw [Int.floor_lt]
    push_cast
    linarith
  have hcount : recordCount (draw 0) = ⌊draw 0 * 500⌋ + 500 := by
    unfold recordCount
    rw [min_eq_right (by omega), max_eq_right (by omega)]
  rw [length_generateMockReportData, hcount]
  refine ⟨rfl, ?_, ?_, ?_⟩
  · exact Int.toNat_of_nonneg (by omega)
  · omega
  · omega

/-- Witness for C27: the draw `0` gives 500 records. -/
theorem recordCount_of_unit_draw_witness :
    500 ≤ (generateMockReportData (initialState 30000) (.at 0) (.at 0) (.str "x")
      (fun _ => 0) (fun _ => 0)).length :=
  (recordCount_of_unit_draw (initialState 30000) (.at 0) (.at 0) (.str "x")
    (fun _ => 0) (fun _ => 0) (le_refl 0) (by norm_num)).2.2.1

/-! ## Rounding to a double -/

theorem roundHalfEven_error (y : ℚ) : |(roundHalfEven y : ℚ) - y| ≤ 1 / 2 := by
  have h1 := Int.floor_le y
  have h2 := Int.lt_floor_add_one y
  unfold roundHalfEven
  split
  · rw [abs_le]
    constructor <;> linarith
  · split
    · rw [abs_le]
      push_cast
      constructor <;> linarith
    · split
      · rw [abs_le]
        constructor <;> linarith
      · rw [abs_le]
        push_cast
        constructor <;> linarith

theorem roundHalfEven_near (y : ℚ) (n : Int) (h : |y - (n : ℚ)| < 1 / 2) :
    roundHalfEven y = n := by
  have herr := roundHalfEven_error y
  have hlt : |((roundHalfEven y - n : Int) : ℚ)| < 1 := by
    push_cast
    rw [abs_lt] at h ⊢
    rw [abs_le] at herr
    constructor <;> linarith
  have hz : |roundHalfEven y - n| < 1 := by exact_mod_cast hlt
  have := Int.abs_lt_one_iff.mp hz
  omega

theorem roundDouble_error (x : ℚ) : |roundDouble x - x| ≤ |x| / 2 ^ 53 := by
  unfold roundDouble
  split
  · rename_i h
    simp [h]
  · rename_i h
    have hpos : (0 : ℚ) < |x| := abs_pos.mpr h
    have hu : (0 : ℚ) < (2 : ℚ) ^ (Int.log 2 |x| - 52) := by positivity
    have hlog : ((2 : ℕ) : ℚ) ^ Int.log 2 |x| ≤ |x| := Int.zpow_log_le_self (by norm_num) hpos
    have herr := roundHalfEven_error (x / (2 : ℚ) ^ (Int.log 2 |x| - 52))
    have hfac : (roundHalfEven (x / (2 : ℚ) ^ (Int.log 2 |x| - 52)) : ℚ)
        * (2 : ℚ) ^ (Int.log 2 |x| - 52) - x
        = ((roundHalfEven (x / (2 : ℚ) ^ (Int.log 2 |x| - 52)) : ℚ)
            - x / (2 : ℚ) ^ (Int.log 2 |x| - 52)) * (2 : ℚ) ^ (Int.log 2 |x| - 52) := by
      field_simp
    rw [hfac, abs_mul, abs_of_pos hu]
    have hsplit : (2 : ℚ) ^ (Int.log 2 |x| - 52) = (2 : ℚ) ^ Int.log 2 |x| / 2 ^ 52 := by
      rw [zpow_sub₀ (by norm_num)]
      norm_num
    have hlog2 : (2 : ℚ) ^ Int.log 2 |x| ≤ |x| := by exact_mod_cast hlog
    calc |(roundHalfEven (x / (2 : ℚ) ^ (Int.log 2 |x| - 52)) : ℚ)
            - x / (2 : ℚ) ^ (Int.log 2 |x| - 52)| * (2 : ℚ) ^ (Int.log 2 |x| - 52)
        ≤ 1 / 2 * (2 : ℚ) ^ (Int.log 2 |x| - 52) :=
          mul_le_mul_of_nonneg_right herr (le_of_lt hu)
      _ = (2 : ℚ) ^ Int.log 2 |x| / 2 ^ 53 := by rw [hsplit]; ring
      _ ≤ |x| / 2 ^ 53 := div_le_div_of_nonneg_right hlog2 (by positivity)

theorem roundDouble_close (x B : ℚ) (hB : |x| ≤ B) : |roundDouble x - x| ≤ B / 2 ^ 53 :=
  le_trans (roundDouble_error x) (div_le_div_of_nonneg_right hB (by positivity))

theorem roundDouble_eval (x : ℚ) (e n : Int) (hlo : (2 : ℚ) ^ e ≤ |x|)
    (hhi : |x| < (2 : ℚ) ^ (e + 1)) (hn : |x / (2 : ℚ) ^ (e - 52) - (n : ℚ)| < 1 / 2) :
    roundDouble x = (n : ℚ) * (2 : ℚ) ^ (e - 52) := by
  have hpos : (0 : ℚ) < |x| := lt_of_lt_of_le (by positivity) hlo
  have hx : x ≠ 0 := abs_pos.mp hpos
  have hlog : Int.log 2 |x| = e := by
    have h1 : e ≤ Int.log 2 |x| :=
      (Int.zpow_le_iff_le_log (by norm_num) hpos).mp (by exact_mod_cast hlo)
    have h2 : Int.log 2 |x| < e + 1 :=
      (Int.lt_zpow_iff_log_lt (by norm_num) hpos).mp (by exact_mod_cast hhi)
    omega
  unfold roundDouble
  rw [if_neg hx, hlog, roundHalfEven_near _ n hn]

theorem toFixed2_near (x : ℚ) (n : Int) (h : |x - (n : ℚ) / 100| < 1 / 200) :
    toFixed2 x = (n : ℚ) / 100 := by
  rw [abs_lt] at h
  unfold toFixed2
  split
  · have hfloor : ⌊-x * 100 + 1 / 2⌋ = -n := by
      rw [Int.floor_eq_iff]
      push_cast
      constructor <;> linarith
    rw [hfloor]
    push_cast
    ring
  · have hfloor : ⌊x * 100 + 1 / 2⌋ = n := by
      rw [Int.floor_eq_iff]
      constructor <;> linarith
    rw [hfloor]

/-! ## Stored profit and profitability -/

theorem stored_price_close (n : Int) (hn : 0 ≤ n ∧ n ≤ 1010000) :
    |roundDouble ((n : ℚ) / 100) - (n : ℚ) / 100| ≤ 2 / 10 ^ 12 := by
  have h0 : (0 : ℚ) ≤ (n : ℚ) := by exact_mod_cast hn.1
  have h1 : (n : ℚ) ≤ 1010000 := by exact_mod_cast hn.2
  have hB : |(n : ℚ) / 100| ≤ 10100 := by
    rw [abs_le]
    constructor <;> linarith
  have h := roundDouble_close _ _ hB
  have hc : (10100 : ℚ) / 2 ^ 53 ≤ 2 / 10 ^ 12 := by norm_num
  linarith

theorem stored_profit_eq (item : ReportRecord) (np nc : Int)
    (hprice : item.price = roundDouble ((np : ℚ) / 100))
    (hcost : item.cost = roundDouble ((nc : ℚ) / 100))
    (hnp : 10000 ≤ np ∧ np ≤ 1010000) (hnc : 5000 ≤ nc ∧ nc ≤ 805000) :
    |item.price - (np : ℚ) / 100| ≤ 2 / 10 ^ 12 ∧
    |item.cost - (nc : ℚ) / 100| ≤ 2 / 10 ^ 12 ∧
    (withProfitDouble item).profit = roundDouble (((np - nc : Int) : ℚ) / 100) ∧
    |(withProfitDouble item).profit - ((np - nc : Int) : ℚ) / 100| ≤ 2 / 10 ^ 12 := by
  have hp := stored_price_close np ⟨by omega, hnp.2⟩
  have hc := stored_price_close nc ⟨by omega, by omega⟩
  rw [← hprice] at hp
  rw [← hcost] at hc
  have hnpq0 : (10000 : ℚ) ≤ (np : ℚ) := by exact_mod_cast hnp.1
  have hnpq1 : (np : ℚ) ≤ 1010000 := by exact_mod_cast hnp.2
  have hncq0 : (5000 : ℚ) ≤ (nc : ℚ) := by exact_mod_cast hnc.1
  have hncq1 : (nc : ℚ) ≤ 805000 := by exact_mod_cast hnc.2
  have hcast : ((np - nc : Int) : ℚ) = (np : ℚ) - (nc : ℚ) := by push_cast; ring
  rw [abs_le] at hp hc
  have hd : |item.price - item.cost| ≤ 10101 := by
    rw [abs_le]
    constructor <;> linarith
  have ha := roundDouble_close _ _ hd
  have hconst : (10101 : ℚ) / 2 ^ 53 ≤ 2 / 10 ^ 12 := by norm_num
  rw [abs_le] at ha
  have hnear : |roundDouble (item.price - item.cost) - ((np - nc : Int) : ℚ) / 100|
      < 1 / 200 := by
    rw [hcast, abs_lt]
    constructor <;> linarith
  have hfix := toFixed2_near _ _ hnear
  have hprofit : (withProfitDouble item).profit = roundDouble (((np - nc : Int) : ℚ) / 100) := by
    show roundDouble (toFixed2 (roundDouble (item.price - item.cost))) = _
    rw [hfix]
  have hB : |((np - nc : Int) : ℚ) / 100| ≤ 10101 := by
    rw [hcast, abs_le]
    constructor <;> linarith
  have hclose := roundDouble_close _ _ hB
  refine ⟨abs_le.mpr hp, abs_le.mpr hc, hprofit, ?_⟩
  rw [hprofit]
  linarith

/-- C18 (amended): for every record whose stored price and cost are, as the
first pass leaves them, the doubles nearest to two-decimal values in the
generator's ranges, the second pass stores as profit the double nearest to
the two-decimal value of `price - cost`, which agrees with `price - cost` of
the stored values to within `10 ^ (-9)` (double rounding) without being
equal to it in general, and stores as profitability
`profit / cost * 100` rounded to two decimals, within `0.005 + 10 ^ (-9)`
of `profit / cost * 100`. -/
theorem stored_profit_and_profitability (item : ReportRecord) (np nc : Int)
    (hprice : item.price = roundDouble ((np : ℚ) / 100))
    (hcost : item.cost = roundDouble ((nc : ℚ) / 100))
    (hnp : 10000 ≤ np ∧ np ≤ 1010000) (hnc : 5000 ≤ nc ∧ nc ≤ 805000) :
    (withProfitDouble item).profit = roundDouble (((np - nc : Int) : ℚ) / 100) ∧
    |(withProfitDouble item).profit - (item.price - item.cost)| ≤ 1 / 10 ^ 9 ∧
    (withProfitDouble item).profitability
      = roundDouble (toFixed2 (roundDouble
          (roundDouble ((withProfitDouble item).profit / item.cost) * 100))) ∧
    |(withProfitDouble item).profitability - (withProfitDouble item).profit / item.cost * 100|
      ≤ 1 / 200 + 1 / 10 ^ 9 := by
  obtain ⟨hp, hc, hprofit, hpclose⟩ := stored_profit_eq item np nc hprice hcost hnp hnc
  have hnpq0 : (10000 : ℚ) ≤ (np : ℚ) := by exact_mod_cast hnp.1
  have hnpq1 : (np : ℚ) ≤ 1010000 := by exact_mod_cast hnp.2
  have hncq0 : (5000 : ℚ) ≤ (nc : ℚ) := by exact_mod_cast hnc.1
  have hncq1 : (nc : ℚ) ≤ 805000 := by exact_mod_cast hnc.2
  have hcast : ((np - nc : Int) : ℚ) = (np : ℚ) - (nc : ℚ) := by push_cast; ring
  rw [hcast] at hpclose
  rw [abs_le] at hp hc hpclose
  have hcostpos : (49 : ℚ) ≤ item.cost := by linarith
  have hcost0 : (0 : ℚ) < item.cost := by linarith
  have hP : |(withProfitDouble item).profit| ≤ 10051 := by
    rw [abs_le]
    constructor <;> linarith
  -- the quotient and its rounding
  have hq : |(withProfitDouble item).profit / item.cost| ≤ 206 := by
    rw [abs_div, abs_of_pos hcost0, div_le_iff₀ hcost0]
    linarith
  have hq1 := roundDouble_close _ _ hq
  have hconst1 : (206 : ℚ) / 2 ^ 53 ≤ 1 / 10 ^ 13 := by norm_num
  rw [abs_le] at hq hq1
  -- the product and its rounding
  have hm : |roundDouble ((withProfitDouble item).profit / item.cost) * 100| ≤ 20700 := by
    rw [abs_le]
    constructor <;> linarith
  have hq2 := roundDouble_close _ _ hm
  have hconst2 : (20700 : ℚ) / 2 ^ 53 ≤ 3 / 10 ^ 12 := by norm_num
  rw [abs_le] at hm hq2
  -- rounding to two decimals and back to a double
  have ht := toFixed2_error
    (roundDouble (roundDouble ((withProfitDouble item).profit / item.cost) * 100))
  rw [abs_le] at ht
  have htB : |toFixed2 (roundDouble
      (roundDouble ((withProfitDouble item).profit / item.cost) * 100))| ≤ 20701 := by
    rw [abs_le]
    constructor <;> linarith
  have hpr := roundDouble_close _ _ htB
  have hconst3 : (20701 : ℚ) / 2 ^ 53 ≤ 3 / 10 ^ 12 := by norm_num
  rw [abs_le] at hpr
  refine ⟨hprofit, ?_, rfl, ?_⟩
  · rw [abs_le]
    constructor <;> linarith
  · show |roundDouble (toFixed2 (roundDouble
        (roundDouble ((withProfitDouble item).profit / item.cost) * 100)))
        - (withProfitDouble item).profit / item.cost * 100| ≤ 1 / 200 + 1 / 10 ^ 9
    rw [abs_le]
    constructor <;> linarith

/-- Witness for C18 (amended): the stored price is the double nearest to
200.03 and the stored cost is 200. -/
theorem stored_profit_and_profitability_witness :
    (withProfitDouble (storedRecord 20003 20000)).profit
      = roundDouble (((20003 - 20000 : Int) : ℚ) / 100) ∧
    |(withProfitDouble (storedRecord 20003 20000)).profit
        - ((storedRecord 20003 20000).price - (storedRecord 20003 20000).cost)|
      ≤ 1 / 10 ^ 9 :=
  ⟨(stored_profit_and_profitability (storedRecord 20003 20000) 20003 20000 rfl rfl
      (by decide) (by decide)).1,
   (stored_profit_and_profitability (storedRecord 20003 20000) 20003 20000 rfl rfl
      (by decide) (by decide)).2.1⟩

theorem roundDouble_200_03 :
    roundDouble ((20003 : ℚ) / 100) = 7037929948929065 / 35184372088832 := by
  have h := roundDouble_eval ((20003 : ℚ) / 100) 7 7037929948929065
    (by rw [abs_of_pos (by norm_num)]; norm_num)
    (by rw [abs_of_pos (by norm_num)]; norm_num)
    (by rw [abs_lt]; constructor <;> norm_num)
  rw [h]
  norm_num

theorem roundDouble_0_03 :
    roundDouble ((3 : ℚ) / 100) = 1080863910568919 / 36028797018963968 := by
  have h := roundDouble_eval ((3 : ℚ) / 100) (-6) 8646911284551352
    (by rw [abs_of_pos (by norm_num)]; norm_num)
    (by rw [abs_of_pos (by norm_num)]; norm_num)
    (by rw [abs_lt]; constructor <;> norm_num)
  rw [h]
  norm_num

theorem roundDouble_200 : roundDouble ((20000 : ℚ) / 100) = 200 := by
  have h := roundDouble_eval ((20000 : ℚ) / 100) 7 7036874417766400
    (by rw [abs_of_pos (by norm_num)]; norm_num)
    (by rw [abs_of_pos (by norm_num)]; norm_num)
    (by rw [abs_lt]; constructor <;> norm_num)
  rw [h]
  norm_num

/-- Counterexample for C18: (1) with the stored price the double nearest to
200.03 and the stored cost 200, the stored profit is the double nearest to
0.03, which is not `price - cost` of the stored values (that is
0.030000000000001137…); (2) with the stored price 100 and the stored cost
1050, the stored profitability is the double nearest to -90.48, which is
neither `profit / cost * 100` evaluated exactly nor its value in double
arithmetic. -/
theorem stored_profit_not_exact :
    (withProfitDouble (storedRecord 20003 20000)).profit
      ≠ (withProfitDouble (storedRecord 20003 20000)).price
        - (withProfitDouble (storedRecord 20003 20000)).cost ∧
    (withProfitDouble (storedRecord 10000 105000)).profitability
      ≠ (withProfitDouble (storedRecord 10000 105000)).profit
        / (withProfitDouble (storedRecord 10000 105000)).cost * 100 ∧
    (withProfitDouble (storedRecord 10000 105000)).profitability
      ≠ roundDouble (roundDouble ((withProfitDouble (storedRecord 10000 105000)).profit
        / (withProfitDouble (storedRecord 10000 105000)).cost) * 100) := by
  refine ⟨?_, ?_⟩
  · -- the profit of the first record
    have hprofit := (stored_profit_eq (storedRecord 20003 20000) 20003 20000 rfl rfl
      (by decide) (by decide)).2.2.1
    have hthree : (((20003 - 20000 : Int) : ℚ) / 100) = (3 : ℚ) / 100 := by norm_num
    rw [hthree, roundDouble_0_03] at hprofit
    have hprice : (withProfitDouble (storedRecord 20003 20000)).price
        = 7037929948929065 / 35184372088832 := by
      show roundDouble (((20003 : Int) : ℚ) / 100) = _
      have hc : (((20003 : Int) : ℚ) / 100) = (20003 : ℚ) / 100 := by norm_num
      rw [hc, roundDouble_200_03]
    have hcost : (withProfitDouble (storedRecord 20003 20000)).cost = 200 := by
      show roundDouble (((20000 : Int) : ℚ) / 100) = _
      have hc : (((20000 : Int) : ℚ) / 100) = (20000 : ℚ) / 100 := by norm_num
      rw [hc, roundDouble_200]
    rw [hprofit, hprice, hcost]
    norm_num
  · -- the profitability of the second record
    obtain ⟨hp, hc, hprofit, hpclose⟩ := stored_profit_eq (storedRecord 10000 105000)
      10000 105000 rfl rfl (by decide) (by decide)
    have hcostEq : (withProfitDouble (storedRecord 10000 105000)).cost
        = (storedRecord 10000 105000).cost := rfl
    have hneg : (((10000 - 105000 : Int) : ℚ) / 100) = -950 := by norm_num
    have hpc : (((10000 : Int) : ℚ) / 100) = 100 := by norm_num
    have hcc : (((105000 : Int) : ℚ) / 100) = 1050 := by norm_num
    rw [hneg] at hpclose
    rw [hcc] at hc
    rw [abs_le] at hc hpclose
    have hcost0 : (0 : ℚ) < (storedRecord 10000 105000).cost := by linarith
    -- the exact quotient times 100 is within 10^-9 of -1900 / 21
    have hq : |(withProfitDouble (storedRecord 10000 105000)).profit
        / (storedRecord 10000 105000).cost - (-19 / 21)| ≤ 1 / 10 ^ 11 := by
      rw [abs_le]
      constructor
      · rw [le_sub_iff_add_le, le_div_iff₀ hcost0]
        nlinarith
      · rw [sub_le_iff_le_add, div_le_iff₀ hcost0]
        nlinarith
    rw [abs_le] at hq
    have hqB : |(withProfitDouble (storedRecord 10000 105000)).profit
        / (storedRecord 10000 105000).cost| ≤ 1 := by
      rw [abs_le]
      constructor <;> linarith
    have hq1 := roundDouble_close _ _ hqB
    have hconst1 : (1 : ℚ) / 2 ^ 53 ≤ 1 / 10 ^ 13 := by norm_num
    rw [abs_le] at hq1
    have hmB : |roundDouble ((withProfitDouble (storedRecord 10000 105000)).profit
        / (storedRecord 10000 105000).cost) * 100| ≤ 100 := by
      rw [abs_le]
      constructor <;> linarith
    have hq2 := roundDouble_close _ _ hmB
    have hconst2 : (100 : ℚ) / 2 ^ 53 ≤ 1 / 10 ^ 13 := by norm_num
    rw [abs_le] at hq2
    have hnear : |roundDouble (roundDouble
        ((withProfitDouble (storedRecord 10000 105000)).profit
          / (storedRecord 10000 105000).cost) * 100) - ((-9048 : Int) : ℚ) / 100|
        < 1 / 200 := by
      rw [abs_lt]
      push_cast
      constructor <;> linarith
    have hfix := toFixed2_near _ _ hnear
    have hrate : (withProfitDouble (storedRecord 10000 105000)).profitability
        = roundDouble (((-9048 : Int) : ℚ) / 100) := by
      show roundDouble (toFixed2 (roundDouble (roundDouble
        ((withProfitDouble (storedRecord 10000 105000)).profit
          / (storedRecord 10000 105000).cost) * 100))) = _
      rw [hfix]
    have hrB : |((-9048 : Int) : ℚ) / 100| ≤ 100 := by
      rw [abs_le]
      push_cast
      constructor <;> norm_num
    have hrclose := roundDouble_close _ _ hrB
    rw [abs_le] at hrclose
    push_cast at hrclose
    rw [hcostEq, hrate]
    push_cast
    constructor
    · intro h
      rw [h] at hrclose
      linarith
    · intro h
      rw [h] at hrclose
      linarith

end FinKrovly
